import Mathlib

/-!
Shallow embedding of the Caliptra ROM image-verification and boot core
(src/image/verify/src/verifier.rs, src/rom/dev/src/flow/update_reset.rs,
src/rom/dev/src/flow/cold_reset/fw_processor.rs, src/rom/dev/src/crypto.rs),
together with theorems settling the frozen claims about it.

Machine integers are modelled as `Nat` with explicit `% 2^32` where wrap-around
matters (the ROM is compiled in release mode, where integer overflow wraps and
shift amounts are masked to the bit width).  Digests are opaque tokens
(`Nat`); the hashing and signature engines are oracle functions carried in the
verification environment, exactly as the Rust code reaches them through the
`ImageVerificationEnv` trait.  CFI laundering (`cfi_launder`, `cfi_assert*`) is
the identity on values and is dropped.
-/

namespace Caliptra

/-- 2^32, the modulus of `u32` arithmetic. -/
def U32_MOD : Nat := 4294967296

/-- SHA-384 digests are opaque 12-word tokens; equality is the only operation
the verifier performs on them. -/
abbrev Digest384 := Nat

/-- SHA-512 digests, likewise opaque. -/
abbrev Digest512 := Nat

/-- The distinguished all-zero digest (`ZERO_DIGEST` in verifier.rs). -/
def ZERO_DIGEST : Digest384 := 0

/-- Reset reason (caliptra_drivers::ResetReason). -/
inductive ResetReason where
  | ColdReset
  | WarmReset
  | UpdateReset
  | Unknown
deriving DecidableEq

/-- Device lifecycle read from fuses (caliptra_drivers::Lifecycle). -/
inductive Lifecycle where
  | Unprovisioned
  | Manufacturing
  | Production
deriving DecidableEq

/-- PQC key family (caliptra_image_types::FwVerificationPqcKeyType). -/
inductive FwVerificationPqcKeyType where
  | LMS
  | MLDSA
deriving DecidableEq

/-- Modelled from the spec: the `u8` encoding of `FwVerificationPqcKeyType`
(`from_u8`); the image-types crate defining the numeric values is not under
src/.  The spec only requires `pqc_key_type ∈ {LMS, MLDSA}`; all other raw
values are invalid. -/
def FwVerificationPqcKeyType.from_u8 (v : Nat) : Option FwVerificationPqcKeyType :=
  if v = 1 then some .LMS
  else if v = 2 then some .MLDSA
  else none

/-- Error codes (the subset of `CaliptraError` reachable from the embedded
functions), one constructor per distinct failure site, named as in the
caliptra_error crate. -/
inductive CaliptraError where
  | IMAGE_VERIFIER_ERR_MANIFEST_MARKER_MISMATCH
  | IMAGE_VERIFIER_ERR_MANIFEST_SIZE_MISMATCH
  | IMAGE_VERIFIER_ERR_PQC_KEY_TYPE_INVALID
  | IMAGE_VERIFIER_ERR_PQC_KEY_TYPE_MISMATCH
  | IMAGE_VERIFIER_ERR_VENDOR_PUB_KEY_DIGEST_INVALID
  | IMAGE_VERIFIER_ERR_ECC_KEY_DESCRIPTOR_VERSION_MISMATCH
  | IMAGE_VERIFIER_ERR_ECC_KEY_DESCRIPTOR_INVALID_HASH_COUNT
  | IMAGE_VERIFIER_ERR_ECC_KEY_DESCRIPTOR_HASH_COUNT_GT_MAX
  | IMAGE_VERIFIER_ERR_PQC_KEY_DESCRIPTOR_VERSION_MISMATCH
  | IMAGE_VERIFIER_ERR_PQC_KEY_DESCRIPTOR_TYPE_MISMATCH
  | IMAGE_VERIFIER_ERR_PQC_KEY_DESCRIPTOR_INVALID_HASH_COUNT
  | IMAGE_VERIFIER_ERR_PQC_KEY_DESCRIPTOR_HASH_COUNT_GT_MAX
  | IMAGE_VERIFIER_ERR_VENDOR_PUB_KEY_DIGEST_FAILURE
  | IMAGE_VERIFIER_ERR_VENDOR_PUB_KEY_DIGEST_MISMATCH
  | IMAGE_VERIFIER_ERR_VENDOR_ECC_PUB_KEY_INDEX_OUT_OF_BOUNDS
  | IMAGE_VERIFIER_ERR_VENDOR_ECC_PUB_KEY_DIGEST_MISMATCH
  | IMAGE_VERIFIER_ERR_VENDOR_PQC_PUB_KEY_INDEX_OUT_OF_BOUNDS
  | IMAGE_VERIFIER_ERR_VENDOR_PQC_PUB_KEY_DIGEST_MISMATCH
  | IMAGE_VERIFIER_ERR_OWNER_PUB_KEY_DIGEST_FAILURE
  | IMAGE_VERIFIER_ERR_OWNER_PUB_KEY_DIGEST_MISMATCH
  | IMAGE_VERIFIER_ERR_UPDATE_RESET_OWNER_DIGEST_FAILURE
  | IMAGE_VERIFIER_ERR_VENDOR_ECC_PUB_KEY_REVOKED
  | IMAGE_VERIFIER_ERR_UPDATE_RESET_VENDOR_ECC_PUB_KEY_IDX_MISMATCH
  | IMAGE_VERIFIER_ERR_VENDOR_PQC_PUB_KEY_REVOKED
  | IMAGE_VERIFIER_ERR_UPDATE_RESET_VENDOR_PQC_PUB_KEY_IDX_MISMATCH
  | IMAGE_VERIFIER_ERR_LMS_VENDOR_PUB_KEY_INVALID
  | IMAGE_VERIFIER_ERR_LMS_VENDOR_SIG_INVALID
  | IMAGE_VERIFIER_ERR_MLDSA_VENDOR_PUB_KEY_READ_FAILED
  | IMAGE_VERIFIER_ERR_MLDSA_VENDOR_SIG_READ_FAILED
  | IMAGE_VERIFIER_ERR_LMS_OWNER_PUB_KEY_INVALID
  | IMAGE_VERIFIER_ERR_LMS_OWNER_SIG_INVALID
  | IMAGE_VERIFIER_ERR_MLDSA_OWNER_PUB_KEY_READ_FAILED
  | IMAGE_VERIFIER_ERR_MLDSA_OWNER_SIG_READ_FAILED
  | IMAGE_VERIFIER_ERR_HEADER_DIGEST_FAILURE
  | IMAGE_VERIFIER_ERR_VENDOR_ECC_VERIFY_FAILURE
  | IMAGE_VERIFIER_ERR_VENDOR_ECC_SIGNATURE_INVALID
  | IMAGE_VERIFIER_ERR_VENDOR_ECC_PUB_KEY_INVALID_ARG
  | IMAGE_VERIFIER_ERR_VENDOR_ECC_SIGNATURE_INVALID_ARG
  | IMAGE_VERIFIER_ERR_VENDOR_LMS_VERIFY_FAILURE
  | IMAGE_VERIFIER_ERR_VENDOR_LMS_SIGNATURE_INVALID
  | IMAGE_VERIFIER_ERR_VENDOR_MLDSA_VERIFY_FAILURE
  | IMAGE_VERIFIER_ERR_VENDOR_MLDSA_SIGNATURE_INVALID
  | IMAGE_VERIFIER_ERR_VENDOR_MLDSA_DIGEST_MISSING
  | IMAGE_VERIFIER_ERR_OWNER_ECC_VERIFY_FAILURE
  | IMAGE_VERIFIER_ERR_OWNER_ECC_SIGNATURE_INVALID
  | IMAGE_VERIFIER_ERR_OWNER_ECC_PUB_KEY_INVALID_ARG
  | IMAGE_VERIFIER_ERR_OWNER_ECC_SIGNATURE_INVALID_ARG
  | IMAGE_VERIFIER_ERR_OWNER_LMS_VERIFY_FAILURE
  | IMAGE_VERIFIER_ERR_OWNER_LMS_SIGNATURE_INVALID
  | IMAGE_VERIFIER_ERR_OWNER_MLDSA_VERIFY_FAILURE
  | IMAGE_VERIFIER_ERR_OWNER_MLDSA_SIGNATURE_INVALID
  | IMAGE_VERIFIER_ERR_OWNER_MLDSA_DIGEST_MISSING
  | IMAGE_VERIFIER_ERR_VENDOR_ECC_PUB_KEY_INDEX_MISMATCH
  | IMAGE_VERIFIER_ERR_VENDOR_PQC_PUB_KEY_INDEX_MISMATCH
  | IMAGE_VERIFIER_ERR_TOC_ENTRY_COUNT_INVALID
  | IMAGE_VERIFIER_ERR_TOC_DIGEST_FAILURE
  | IMAGE_VERIFIER_ERR_TOC_DIGEST_MISMATCH
  | IMAGE_VERIFIER_ERR_FMC_SIZE_ZERO
  | IMAGE_VERIFIER_ERR_RUNTIME_SIZE_ZERO
  | IMAGE_VERIFIER_ERR_IMAGE_LEN_MORE_THAN_BUNDLE_SIZE
  | IMAGE_VERIFIER_ERR_FMC_RUNTIME_OVERLAP
  | IMAGE_VERIFIER_ERR_FMC_RUNTIME_INCORRECT_ORDER
  | IMAGE_VERIFIER_ERR_FMC_LOAD_ADDRESS_IMAGE_SIZE_ARITHMETIC_OVERFLOW
  | IMAGE_VERIFIER_ERR_RUNTIME_LOAD_ADDRESS_IMAGE_SIZE_ARITHMETIC_OVERFLOW
  | IMAGE_VERIFIER_ERR_FMC_RUNTIME_LOAD_ADDR_OVERLAP
  | IMAGE_VERIFIER_ERR_TOC_ENTRY_RANGE_ARITHMETIC_OVERFLOW
  | IMAGE_VERIFIER_ERR_FMC_DIGEST_FAILURE
  | IMAGE_VERIFIER_ERR_FMC_DIGEST_MISMATCH
  | IMAGE_VERIFIER_ERR_FMC_LOAD_ADDR_INVALID
  | IMAGE_VERIFIER_ERR_FMC_LOAD_ADDR_UNALIGNED
  | IMAGE_VERIFIER_ERR_FMC_ENTRY_POINT_INVALID
  | IMAGE_VERIFIER_ERR_FMC_ENTRY_POINT_UNALIGNED
  | IMAGE_VERIFIER_ERR_UPDATE_RESET_FMC_DIGEST_MISMATCH
  | IMAGE_VERIFIER_ERR_RUNTIME_DIGEST_FAILURE
  | IMAGE_VERIFIER_ERR_RUNTIME_DIGEST_MISMATCH
  | IMAGE_VERIFIER_ERR_RUNTIME_LOAD_ADDR_INVALID
  | IMAGE_VERIFIER_ERR_RUNTIME_LOAD_ADDR_UNALIGNED
  | IMAGE_VERIFIER_ERR_RUNTIME_ENTRY_POINT_INVALID
  | IMAGE_VERIFIER_ERR_RUNTIME_ENTRY_POINT_UNALIGNED
  | IMAGE_VERIFIER_ERR_FIRMWARE_SVN_GREATER_THAN_MAX_SUPPORTED
  | IMAGE_VERIFIER_ERR_FIRMWARE_SVN_LESS_THAN_FUSE
  | FW_PROC_SVN_TOO_LARGE
  | FW_PROC_MAILBOX_STASH_MEASUREMENT_MAX_LIMIT
  | FW_PROC_MAILBOX_INVALID_CHECKSUM
  | FW_PROC_MAILBOX_INVALID_REQUEST_LENGTH
  | ROM_GLOBAL_MEASUREMENT_LOG_EXHAUSTED
  | ROM_KDF_FAILURE
  | ROM_KEY_PAIR_FAILURE
  | ROM_ERASE_FAILURE
deriving DecidableEq

/-- ECC P-384 public key as laid out in the image (caliptra_image_types::ImageEccPubKey). -/
structure ImageEccPubKey where
  x : Digest384
  y : Digest384
deriving DecidableEq

/-- ECC P-384 signature (caliptra_image_types::ImageEccSignature). -/
structure ImageEccSignature where
  r : Digest384
  s : Digest384
deriving DecidableEq

/-- LMS public key; only its `digest` field is inspected by the verifier
(compared against the candidate key returned by the LMS engine), the rest is
passed opaquely to the engine and is folded into the `body` token. -/
structure ImageLmsPublicKey where
  digest : Nat
  body : Nat
deriving DecidableEq

/-- LMS signature, opaque to the verifier (engine input only). -/
abbrev ImageLmsSignature := Nat

/-- ML-DSA-87 public key, opaque to the verifier (engine input only). -/
abbrev ImageMldsaPubKey := Nat

/-- ML-DSA-87 signature, opaque to the verifier (engine input only). -/
abbrev ImageMldsaSignature := Nat

/-- ML-DSA verification engine outcome (caliptra_drivers::Mldsa87Result). -/
inductive Mldsa87Result where
  | Success
  | SigVerifyFailed
deriving DecidableEq

/-- ECC key descriptor in the vendor public-key info
(caliptra_image_types::ImageEccKeyDescriptor).  `key_hash` is the fixed-size
hash array, modelled as a list whose length is the array bound. -/
structure ImageEccKeyDescriptor where
  version : Nat
  key_hash_count : Nat
  key_hash : List Digest384
deriving DecidableEq

/-- PQC key descriptor (caliptra_image_types::ImagePqcKeyDescriptor). -/
structure ImagePqcKeyDescriptor where
  version : Nat
  key_type : Nat
  key_hash_count : Nat
  key_hash : List Digest384
deriving DecidableEq

/-- Vendor public-key info (caliptra_image_types::ImageVendorPubKeyInfo). -/
structure ImageVendorPubKeyInfo where
  ecc_key_descriptor : ImageEccKeyDescriptor
  pqc_key_descriptor : ImagePqcKeyDescriptor
deriving DecidableEq

/-- Image preamble (caliptra_image_types::ImagePreamble).  The raw PQC key and
signature byte arrays are opaque tokens; the verifier reinterprets them via the
zerocopy parse oracles in `Env`. -/
structure ImagePreamble where
  vendor_pub_key_info : ImageVendorPubKeyInfo
  vendor_ecc_pub_key_idx : Nat
  vendor_ecc_active_pub_key : ImageEccPubKey
  vendor_pqc_pub_key_idx : Nat
  vendor_pqc_active_pub_key : Nat
  vendor_sigs_ecc_sig : ImageEccSignature
  vendor_sigs_pqc_sig : Nat
  owner_pub_keys_ecc_pub_key : ImageEccPubKey
  owner_pub_keys_pqc_pub_key : Nat
  owner_sigs_ecc_sig : ImageEccSignature
  owner_sigs_pqc_sig : Nat
deriving DecidableEq

/-- Image header (caliptra_image_types::ImageHeader); only the fields the
verifier reads are modelled. -/
structure ImageHeader where
  vendor_ecc_pub_key_idx : Nat
  vendor_pqc_pub_key_idx : Nat
  svn : Nat
  toc_len : Nat
  toc_digest : Digest384
deriving DecidableEq

/-- TOC entry (caliptra_image_types::ImageTocEntry). -/
structure ImageTocEntry where
  digest : Digest384
  load_addr : Nat
  entry_point : Nat
  size : Nat
  offset : Nat
deriving DecidableEq

/-- `ImageTocEntry::image_size`; modelled from the spec (the image-types crate
is not under src/): the in-bundle byte size of the component. -/
def ImageTocEntry.image_size (e : ImageTocEntry) : Nat := e.size

/-- `ImageTocEntry::image_range`; modelled from the spec (the image-types crate
is not under src/): the half-open in-bundle byte range `offset..offset+size`,
failing when the `u32` addition `offset + size` overflows. -/
def ImageTocEntry.image_range (e : ImageTocEntry) :
    Except CaliptraError (Nat × Nat) :=
  if e.offset + e.size < U32_MOD then
    .ok (e.offset, e.offset + e.size)
  else
    .error CaliptraError.IMAGE_VERIFIER_ERR_TOC_ENTRY_RANGE_ARITHMETIC_OVERFLOW

/-- Image manifest (caliptra_image_types::ImageManifest). -/
structure ImageManifest where
  marker : Nat
  size : Nat
  pqc_key_type : Nat
  preamble : ImagePreamble
  header : ImageHeader
  fmc : ImageTocEntry
  runtime : ImageTocEntry
deriving DecidableEq

/-- Modelled from the spec: the manifest marker constant (image-types crate,
not under src/).  Its concrete value is irrelevant to every claim. -/
def MANIFEST_MARKER : Nat := 0x434D414E

/-- Modelled from the spec: `size_of::<ImageManifest>()`.  The struct layout
lives in the image-types crate (not under src/); the value is irrelevant to
every claim. -/
def IMAGE_MANIFEST_BYTE_SIZE : Nat := 17152

/-- MAX_FIRMWARE_SVN (caliptra_image_verify crate root, not under src/);
modelled from the spec, which bounds fw_svn by it and sizes the key ladder as
`MAX_FIRMWARE_SVN − fw_svn`.  The proofs are parametric in everything except
witnesses, which only need some fixed value. -/
def MAX_FIRMWARE_SVN : Nat := 128

/-- MAX_TOC_ENTRY_COUNT: exactly two TOC entries (FMC, Runtime), per spec §3. -/
def MAX_TOC_ENTRY_COUNT : Nat := 2

/-- KEY_DESCRIPTOR_VERSION (image-types crate, not under src/); concrete value
irrelevant to every claim. -/
def KEY_DESCRIPTOR_VERSION : Nat := 1

/-- Maximum vendor ECC key-hash count (image-types crate, not under src/). -/
def VENDOR_ECC_MAX_KEY_COUNT : Nat := 4

/-- Maximum vendor LMS key-hash count (image-types crate, not under src/). -/
def VENDOR_LMS_MAX_KEY_COUNT : Nat := 32

/-- Maximum vendor MLDSA key-hash count (image-types crate, not under src/). -/
def VENDOR_MLDSA_MAX_KEY_COUNT : Nat := 4

/-- Modelled from the spec: fixed byte ranges of regions inside the manifest
(`ImageManifest::vendor_pub_key_descriptors_range`, `owner_pub_key_range`,
`header_range`, `toc_range`, and the spans of the active-key fields).  These
are struct-layout facts from the image-types crate (not under src/); the
verifier only feeds them to the digest oracles, so their concrete values are
irrelevant to every claim.  Ranges are `(start, end)` with `len = end−start`. -/
def vendor_pub_key_descriptors_range : Nat × Nat := (8, 404)

/-- Modelled from the spec: span of `vendor_ecc_active_pub_key` within the
manifest (see `vendor_pub_key_descriptors_range`). -/
def vendor_ecc_active_pub_key_range : Nat × Nat := (404, 500)

/-- Modelled from the spec: start offset of `vendor_pqc_active_pub_key` within
the manifest (see `vendor_pub_key_descriptors_range`). -/
def vendor_pqc_active_pub_key_start : Nat := 500

/-- Modelled from the spec: ML-DSA-87 public key byte size (2592). -/
def MLDSA87_PUB_KEY_BYTE_SIZE : Nat := 2592

/-- Modelled from the spec: LMS public key byte size (48). -/
def LMS_PUB_KEY_BYTE_SIZE : Nat := 48

/-- Modelled from the spec: owner public-key region range within the manifest
(see `vendor_pub_key_descriptors_range`). -/
def owner_pub_key_range : Nat × Nat := (8000, 10688)

/-- Modelled from the spec: header range within the manifest. -/
def header_range : Nat × Nat := (12000, 13000)

/-- Modelled from the spec: byte length of the header prefix up to
`owner_data` (the vendor header digest domain). -/
def vendor_header_len : Nat := 600

/-- Modelled from the spec: TOC range within the manifest. -/
def toc_range : Nat × Nat := (13000, 13400)

/-- The verification environment: fuse values, data-vault values and crypto
engines, exactly the surface the Rust `ImageVerificationEnv` trait exposes to
`ImageVerifier`.  Engine calls are oracle functions of their arguments (for
digests, of the `(offset, len)` pair over the fixed image); an engine failure
is `Except Unit`'s error, which each call site maps to its fixed verifier
error code, just as the Rust code does with `map_err`.  The zerocopy
reinterpretation of the raw PQC byte arrays (`ref_from_prefix`) is likewise an
oracle pair of parse functions. -/
structure Env where
  dev_lifecycle : Lifecycle
  anti_rollback_disable : Bool
  fw_fuse_svn : Nat
  vendor_ecc_pub_key_revocation : Nat
  vendor_lms_pub_key_revocation : Nat
  vendor_mldsa_pub_key_revocation : Nat
  vendor_pub_key_info_digest_fuses : Digest384
  owner_pub_key_digest_fuses : Digest384
  pqc_key_type_fuse : Option FwVerificationPqcKeyType
  vendor_ecc_pub_key_idx_dv : Nat
  vendor_pqc_pub_key_idx_dv : Nat
  owner_pub_key_digest_dv : Digest384
  get_fmc_digest_dv : Digest384
  iccm_range_start : Nat
  iccm_range_end : Nat
  sha384_digest : Nat → Nat → Except Unit Digest384
  sha512_digest : Nat → Nat → Except Unit Digest512
  ecc384_verify : Digest384 → ImageEccPubKey → ImageEccSignature → Except Unit Digest384
  lms_verify : Digest384 → ImageLmsPublicKey → ImageLmsSignature → Except Unit Nat
  mldsa87_verify : Digest512 → ImageMldsaPubKey → ImageMldsaSignature → Except Unit Mldsa87Result
  parse_lms_pub_key : Nat → Option ImageLmsPublicKey
  parse_lms_sig : Nat → Option ImageLmsSignature
  parse_mldsa_pub_key : Nat → Option ImageMldsaPubKey
  parse_mldsa_sig : Nat → Option ImageMldsaSignature

/-- `Range<u32>::contains` for the ICCM range (start inclusive, end exclusive). -/
def Env.iccm_contains (env : Env) (a : Nat) : Prop :=
  env.iccm_range_start ≤ a ∧ a < env.iccm_range_end

instance (env : Env) (a : Nat) : Decidable (env.iccm_contains a) := by
  unfold Env.iccm_contains; infer_instance

/-- `u32` wrap-around. -/
def wrap32 (n : Nat) : Nat := n % U32_MOD

/-- PQC public key and signature (verifier.rs `PqcKeyInfo`). -/
inductive PqcKeyInfo where
  | Lms (pub_key : ImageLmsPublicKey) (sig : ImageLmsSignature)
  | Mldsa (pub_key : ImageMldsaPubKey) (sig : ImageMldsaSignature)
deriving DecidableEq

/-- Header info gathered by `verify_preamble` (verifier.rs `HeaderInfo`). -/
structure HeaderInfo where
  vendor_ecc_pub_key_idx : Nat
  vendor_pqc_pub_key_idx : Nat
  vendor_ecc_pub_key_revocation : Nat
  vendor_ecc_info : ImageEccPubKey × ImageEccSignature
  vendor_pqc_info : PqcKeyInfo
  vendor_pqc_pub_key_revocation : Nat
  owner_ecc_info : ImageEccPubKey × ImageEccSignature
  owner_pqc_info : PqcKeyInfo
  owner_pub_keys_digest : Digest384
  owner_pub_keys_digest_in_fuses : Bool
deriving DecidableEq

/-- Digest holder passed into signature verification (ImageDigestHolder):
always a SHA-384 digest, plus a SHA-512 digest only on the MLDSA path. -/
structure ImageDigestHolder where
  digest_384 : Digest384
  digest_512 : Option Digest512
deriving DecidableEq

/-- Per-component executable info returned by `verify_fmc`/`verify_runtime`
(caliptra_image_verify::ImageVerificationExeInfo). -/
structure ImageVerificationExeInfo where
  load_addr : Nat
  entry_point : Nat
  digest : Digest384
  size : Nat
deriving DecidableEq

/-- Verification result (caliptra_image_verify::ImageVerificationInfo);
the log-info substructure is omitted (nothing below reads it). -/
structure ImageVerificationInfo where
  vendor_ecc_pub_key_idx : Nat
  vendor_pqc_pub_key_idx : Nat
  owner_pub_keys_digest : Digest384
  owner_pub_keys_digest_in_fuses : Bool
  fmc : ImageVerificationExeInfo
  runtime : ImageVerificationExeInfo
  fw_svn : Nat
  effective_fuse_svn : Nat
  pqc_key_type : FwVerificationPqcKeyType
deriving DecidableEq

/-- verifier.rs `svn_check_required` (lines 1109–1124): the SVN check is
skipped when the device is unprovisioned or anti-rollback is disabled. -/
def svn_check_required (env : Env) : Bool :=
  if env.dev_lifecycle = Lifecycle.Unprovisioned then false
  else if env.anti_rollback_disable then false
  else true

/-- verifier.rs `verify_svn` (lines 169–182). -/
def verify_svn (env : Env) (fw_svn : Nat) : Except CaliptraError Unit := do
  if svn_check_required env then
    if fw_svn > MAX_FIRMWARE_SVN then
      throw .IMAGE_VERIFIER_ERR_FIRMWARE_SVN_GREATER_THAN_MAX_SUPPORTED
    if fw_svn < env.fw_fuse_svn then
      throw .IMAGE_VERIFIER_ERR_FIRMWARE_SVN_LESS_THAN_FUSE
  pure ()

/-- verifier.rs `effective_fuse_svn`: zero when anti-rollback is disabled,
else the fuse value. -/
def effective_fuse_svn (env : Env) : Nat :=
  if env.anti_rollback_disable then 0 else env.fw_fuse_svn

/-- verifier.rs `verify_vendor_ecc_pk_idx` (lines 344–388).
`last_key_idx = key_hash_count as u32 - 1` is release-mode wrapping `u32`
subtraction (for `key_hash_count = 0` it wraps to `0xFFFF_FFFF`).
`VendorEccPubKeyRevocation` lives in the drivers crate (not under src/) and
is modelled from the spec as a plain `u32` bitmask test; the shift amount is
masked to the low five bits as release-mode Rust does. -/
def verify_vendor_ecc_pk_idx (env : Env) (preamble : ImagePreamble)
    (reason : ResetReason) : Except CaliptraError (Nat × Nat) := do
  let key_idx := preamble.vendor_ecc_pub_key_idx
  let revocation := env.vendor_ecc_pub_key_revocation
  let key_hash_count := preamble.vendor_pub_key_info.ecc_key_descriptor.key_hash_count
  let last_key_idx := wrap32 (key_hash_count + (U32_MOD - 1))
  if key_idx > last_key_idx then
    throw .IMAGE_VERIFIER_ERR_VENDOR_ECC_PUB_KEY_INDEX_OUT_OF_BOUNDS
  if key_idx = last_key_idx then
    pure ()
  else
    if revocation.testBit (key_idx % 32) then
      throw .IMAGE_VERIFIER_ERR_VENDOR_ECC_PUB_KEY_REVOKED
  if reason = ResetReason.UpdateReset then
    if env.vendor_ecc_pub_key_idx_dv ≠ key_idx then
      throw .IMAGE_VERIFIER_ERR_UPDATE_RESET_VENDOR_ECC_PUB_KEY_IDX_MISMATCH
  pure (key_idx, revocation)

/-- verifier.rs `verify_vendor_pqc_pk_idx` (lines 391–432); same wrapping
`last_key_idx` computation, revocation word passed in by the caller. -/
def verify_vendor_pqc_pk_idx (env : Env) (preamble : ImagePreamble)
    (reason : ResetReason) (revocation : Nat) : Except CaliptraError Nat := do
  let key_idx := preamble.vendor_pqc_pub_key_idx
  let key_hash_count := preamble.vendor_pub_key_info.pqc_key_descriptor.key_hash_count
  let last_key_idx := wrap32 (key_hash_count + (U32_MOD - 1))
  if key_idx > last_key_idx then
    throw .IMAGE_VERIFIER_ERR_VENDOR_PQC_PUB_KEY_INDEX_OUT_OF_BOUNDS
  if key_idx = last_key_idx then
    pure ()
  else
    if revocation.testBit (key_idx % 32) then
      throw .IMAGE_VERIFIER_ERR_VENDOR_PQC_PUB_KEY_REVOKED
  if reason = ResetReason.UpdateReset then
    if env.vendor_pqc_pub_key_idx_dv ≠ key_idx then
      throw .IMAGE_VERIFIER_ERR_UPDATE_RESET_VENDOR_PQC_PUB_KEY_IDX_MISMATCH
  pure key_idx

/-- verifier.rs `verify_active_ecc_pub_key_digest` (lines 526–557). -/
def verify_active_ecc_pub_key_digest (env : Env) (preamble : ImagePreamble) :
    Except CaliptraError Unit := do
  let ecc_key_idx := preamble.vendor_ecc_pub_key_idx
  let expected ←
    match preamble.vendor_pub_key_info.ecc_key_descriptor.key_hash.get? ecc_key_idx with
    | none => throw .IMAGE_VERIFIER_ERR_VENDOR_ECC_PUB_KEY_INDEX_OUT_OF_BOUNDS
    | some d => pure d
  let range := vendor_ecc_active_pub_key_range
  let actual ←
    match env.sha384_digest range.1 (range.2 - range.1) with
    | .error _ => throw .IMAGE_VERIFIER_ERR_VENDOR_PUB_KEY_DIGEST_FAILURE
    | .ok d => pure d
  if expected ≠ actual then
    throw .IMAGE_VERIFIER_ERR_VENDOR_ECC_PUB_KEY_DIGEST_MISMATCH
  pure ()

/-- verifier.rs `verify_active_pqc_pub_key_digest` (lines 559–607). -/
def verify_active_pqc_pub_key_digest (env : Env) (preamble : ImagePreamble)
    (pqc_key_type : FwVerificationPqcKeyType) : Except CaliptraError Unit := do
  let pqc_key_idx := preamble.vendor_pqc_pub_key_idx
  let expected := preamble.vendor_pub_key_info.pqc_key_descriptor.key_hash.get? pqc_key_idx
  if expected = none ∨
      (pqc_key_type = FwVerificationPqcKeyType.LMS ∧ pqc_key_idx ≥ VENDOR_LMS_MAX_KEY_COUNT) ∨
      (pqc_key_type = FwVerificationPqcKeyType.MLDSA ∧ pqc_key_idx ≥ VENDOR_MLDSA_MAX_KEY_COUNT) then
    throw .IMAGE_VERIFIER_ERR_VENDOR_PQC_PUB_KEY_INDEX_OUT_OF_BOUNDS
  let expected ← match expected with
    | none => throw .IMAGE_VERIFIER_ERR_VENDOR_PQC_PUB_KEY_INDEX_OUT_OF_BOUNDS
    | some d => pure d
  let start := vendor_pqc_active_pub_key_start
  let size := if pqc_key_type = FwVerificationPqcKeyType.MLDSA then
      MLDSA87_PUB_KEY_BYTE_SIZE
    else
      LMS_PUB_KEY_BYTE_SIZE
  let actual ←
    match env.sha384_digest start size with
    | .error _ => throw .IMAGE_VERIFIER_ERR_VENDOR_PUB_KEY_DIGEST_FAILURE
    | .ok d => pure d
  if expected ≠ actual then
    throw .IMAGE_VERIFIER_ERR_VENDOR_PQC_PUB_KEY_DIGEST_MISMATCH
  pure ()

/-- verifier.rs `verify_vendor_pub_key_info_digest` (lines 435–524): skipped
entirely in the unprovisioned lifecycle; otherwise validates both key
descriptors and checks the fuse digest over the descriptor region, then the
active ECC and PQC key digests. -/
def verify_vendor_pub_key_info_digest (env : Env) (preamble : ImagePreamble)
    (pqc_key_type : FwVerificationPqcKeyType) : Except CaliptraError Unit :=
  if env.dev_lifecycle = Lifecycle.Unprovisioned then
    pure ()
  else do
  let expected := env.vendor_pub_key_info_digest_fuses
  if expected = ZERO_DIGEST then
    throw .IMAGE_VERIFIER_ERR_VENDOR_PUB_KEY_DIGEST_INVALID
  let pub_key_info := preamble.vendor_pub_key_info
  if pub_key_info.ecc_key_descriptor.version ≠ KEY_DESCRIPTOR_VERSION then
    throw .IMAGE_VERIFIER_ERR_ECC_KEY_DESCRIPTOR_VERSION_MISMATCH
  if pub_key_info.ecc_key_descriptor.key_hash_count = 0 then
    throw .IMAGE_VERIFIER_ERR_ECC_KEY_DESCRIPTOR_INVALID_HASH_COUNT
  if pub_key_info.ecc_key_descriptor.key_hash_count > VENDOR_ECC_MAX_KEY_COUNT then
    throw .IMAGE_VERIFIER_ERR_ECC_KEY_DESCRIPTOR_HASH_COUNT_GT_MAX
  if pub_key_info.pqc_key_descriptor.version ≠ KEY_DESCRIPTOR_VERSION then
    throw .IMAGE_VERIFIER_ERR_PQC_KEY_DESCRIPTOR_VERSION_MISMATCH
  if pub_key_info.pqc_key_descriptor.key_type ≠
      (if pqc_key_type = FwVerificationPqcKeyType.LMS then 1 else 2) then
    throw .IMAGE_VERIFIER_ERR_PQC_KEY_DESCRIPTOR_TYPE_MISMATCH
  if pub_key_info.pqc_key_descriptor.key_hash_count = 0 then
    throw .IMAGE_VERIFIER_ERR_PQC_KEY_DESCRIPTOR_INVALID_HASH_COUNT
  if (pqc_key_type = FwVerificationPqcKeyType.LMS ∧
        pub_key_info.pqc_key_descriptor.key_hash_count > VENDOR_LMS_MAX_KEY_COUNT) ∨
      (pqc_key_type = FwVerificationPqcKeyType.MLDSA ∧
        pub_key_info.pqc_key_descriptor.key_hash_count > VENDOR_MLDSA_MAX_KEY_COUNT) then
    throw .IMAGE_VERIFIER_ERR_PQC_KEY_DESCRIPTOR_HASH_COUNT_GT_MAX
  let range := vendor_pub_key_descriptors_range
  let actual ←
    match env.sha384_digest range.1 (range.2 - range.1) with
    | .error _ => throw .IMAGE_VERIFIER_ERR_VENDOR_PUB_KEY_DIGEST_FAILURE
    | .ok d => pure d
  if expected ≠ actual then
    throw .IMAGE_VERIFIER_ERR_VENDOR_PUB_KEY_DIGEST_MISMATCH
  verify_active_ecc_pub_key_digest env preamble
  verify_active_pqc_pub_key_digest env preamble pqc_key_type

/-- verifier.rs `verify_owner_pk_digest` (lines 611–655): digest over the
owner public-key region; must match a non-zero fuse value, and in update
reset the data-vault value; returns the digest and whether fuses held it. -/
def verify_owner_pk_digest (env : Env) (reason : ResetReason) :
    Except CaliptraError (Digest384 × Bool) := do
  let range := owner_pub_key_range
  let actual ←
    match env.sha384_digest range.1 (range.2 - range.1) with
    | .error _ => throw .IMAGE_VERIFIER_ERR_OWNER_PUB_KEY_DIGEST_FAILURE
    | .ok d => pure d
  let fuses_digest := env.owner_pub_key_digest_fuses
  if fuses_digest = ZERO_DIGEST then
    pure ()
  else
    if fuses_digest ≠ actual then
      throw .IMAGE_VERIFIER_ERR_OWNER_PUB_KEY_DIGEST_MISMATCH
  if reason = ResetReason.UpdateReset then
    if env.owner_pub_key_digest_dv ≠ actual then
      throw .IMAGE_VERIFIER_ERR_UPDATE_RESET_OWNER_DIGEST_FAILURE
  pure (actual, decide (fuses_digest ≠ ZERO_DIGEST))

/-- verifier.rs `verify_preamble` (lines 199–341). -/
def verify_preamble (env : Env) (preamble : ImagePreamble) (reason : ResetReason)
    (pqc_key_type : FwVerificationPqcKeyType) : Except CaliptraError HeaderInfo := do
  verify_vendor_pub_key_info_digest env preamble pqc_key_type
  let owner_digest_info ← verify_owner_pk_digest env reason
  let ecc_idx_info ← verify_vendor_ecc_pk_idx env preamble reason
  let vendor_ecc_info := (preamble.vendor_ecc_active_pub_key, preamble.vendor_sigs_ecc_sig)
  let vendor_pqc ←
    match pqc_key_type with
    | FwVerificationPqcKeyType.LMS => do
        let lms_pub_key ←
          match env.parse_lms_pub_key preamble.vendor_pqc_active_pub_key with
          | none => throw .IMAGE_VERIFIER_ERR_LMS_VENDOR_PUB_KEY_INVALID
          | some k => pure k
        let lms_sig ←
          match env.parse_lms_sig preamble.vendor_sigs_pqc_sig with
          | none => throw .IMAGE_VERIFIER_ERR_LMS_VENDOR_SIG_INVALID
          | some s => pure s
        let key_revocation := env.vendor_lms_pub_key_revocation
        let idx ← verify_vendor_pqc_pk_idx env preamble reason key_revocation
        pure (PqcKeyInfo.Lms lms_pub_key lms_sig, idx, key_revocation)
    | FwVerificationPqcKeyType.MLDSA => do
        let mldsa_pub_key ←
          match env.parse_mldsa_pub_key preamble.vendor_pqc_active_pub_key with
          | none => throw .IMAGE_VERIFIER_ERR_MLDSA_VENDOR_PUB_KEY_READ_FAILED
          | some k => pure k
        let mldsa_sig ←
          match env.parse_mldsa_sig preamble.vendor_sigs_pqc_sig with
          | none => throw .IMAGE_VERIFIER_ERR_MLDSA_VENDOR_SIG_READ_FAILED
          | some s => pure s
        let key_revocation := env.vendor_mldsa_pub_key_revocation
        let idx ← verify_vendor_pqc_pk_idx env preamble reason key_revocation
        pure (PqcKeyInfo.Mldsa mldsa_pub_key mldsa_sig, idx, key_revocation)
  let owner_ecc_info := (preamble.owner_pub_keys_ecc_pub_key, preamble.owner_sigs_ecc_sig)
  let owner_pqc_info ←
    match pqc_key_type with
    | FwVerificationPqcKeyType.LMS => do
        let lms_pub_key ←
          match env.parse_lms_pub_key preamble.owner_pub_keys_pqc_pub_key with
          | none => throw .IMAGE_VERIFIER_ERR_LMS_OWNER_PUB_KEY_INVALID
          | some k => pure k
        let lms_sig ←
          match env.parse_lms_sig preamble.owner_sigs_pqc_sig with
          | none => throw .IMAGE_VERIFIER_ERR_LMS_OWNER_SIG_INVALID
          | some s => pure s
        pure (PqcKeyInfo.Lms lms_pub_key lms_sig)
    | FwVerificationPqcKeyType.MLDSA => do
        let mldsa_pub_key ←
          match env.parse_mldsa_pub_key preamble.owner_pub_keys_pqc_pub_key with
          | none => throw .IMAGE_VERIFIER_ERR_MLDSA_OWNER_PUB_KEY_READ_FAILED
          | some k => pure k
        let mldsa_sig ←
          match env.parse_mldsa_sig preamble.owner_sigs_pqc_sig with
          | none => throw .IMAGE_VERIFIER_ERR_MLDSA_OWNER_SIG_READ_FAILED
          | some s => pure s
        pure (PqcKeyInfo.Mldsa mldsa_pub_key mldsa_sig)
  pure {
    vendor_ecc_pub_key_idx := ecc_idx_info.1
    vendor_pqc_pub_key_idx := vendor_pqc.2.1
    vendor_ecc_pub_key_revocation := ecc_idx_info.2
    vendor_ecc_info
    vendor_pqc_info := vendor_pqc.1
    vendor_pqc_pub_key_revocation := vendor_pqc.2.2
    owner_ecc_info
    owner_pqc_info
    owner_pub_keys_digest := owner_digest_info.1
    owner_pub_keys_digest_in_fuses := owner_digest_info.2
  }

/-- verifier.rs `verify_ecc_sig` (lines 768–828), used for the owner ECC
signature (`is_owner = true`); the engine result must equal `sig.r`. -/
def verify_ecc_sig (env : Env) (digest : Digest384) (pub_key : ImageEccPubKey)
    (sig : ImageEccSignature) (is_owner : Bool) : Except CaliptraError Unit := do
  let signature_invalid := if is_owner then
      CaliptraError.IMAGE_VERIFIER_ERR_OWNER_ECC_SIGNATURE_INVALID
    else
      CaliptraError.IMAGE_VERIFIER_ERR_VENDOR_ECC_SIGNATURE_INVALID
  let pub_key_invalid_arg := if is_owner then
      CaliptraError.IMAGE_VERIFIER_ERR_OWNER_ECC_PUB_KEY_INVALID_ARG
    else
      CaliptraError.IMAGE_VERIFIER_ERR_VENDOR_ECC_PUB_KEY_INVALID_ARG
  let sig_invalid_arg := if is_owner then
      CaliptraError.IMAGE_VERIFIER_ERR_OWNER_ECC_SIGNATURE_INVALID_ARG
    else
      CaliptraError.IMAGE_VERIFIER_ERR_VENDOR_ECC_SIGNATURE_INVALID_ARG
  if pub_key.x = ZERO_DIGEST ∨ pub_key.y = ZERO_DIGEST then
    throw pub_key_invalid_arg
  if sig.r = ZERO_DIGEST ∨ sig.s = ZERO_DIGEST then
    throw sig_invalid_arg
  let verify_r ←
    match env.ecc384_verify digest pub_key sig with
    | .error _ =>
        throw (if is_owner then
          CaliptraError.IMAGE_VERIFIER_ERR_OWNER_ECC_VERIFY_FAILURE
        else
          CaliptraError.IMAGE_VERIFIER_ERR_VENDOR_ECC_VERIFY_FAILURE)
    | .ok r => pure r
  if verify_r ≠ sig.r then
    throw signature_invalid
  pure ()

/-- verifier.rs `verify_lms_sig` (lines 912–960): the candidate key returned
by the LMS engine must equal the hash value of the LMS public-key digest. -/
def verify_lms_sig (env : Env) (digest : Digest384) (lms_pub_key : ImageLmsPublicKey)
    (lms_sig : ImageLmsSignature) (is_owner : Bool) : Except CaliptraError Unit := do
  let candidate_key ←
    match env.lms_verify digest lms_pub_key lms_sig with
    | .error _ =>
        throw (if is_owner then
          CaliptraError.IMAGE_VERIFIER_ERR_OWNER_LMS_VERIFY_FAILURE
        else
          CaliptraError.IMAGE_VERIFIER_ERR_VENDOR_LMS_VERIFY_FAILURE)
    | .ok c => pure c
  if candidate_key ≠ lms_pub_key.digest then
    throw (if is_owner then
      CaliptraError.IMAGE_VERIFIER_ERR_OWNER_LMS_SIGNATURE_INVALID
    else
      CaliptraError.IMAGE_VERIFIER_ERR_VENDOR_LMS_SIGNATURE_INVALID)
  pure ()

/-- verifier.rs `verify_mldsa_sig` (lines 963–1008). -/
def verify_mldsa_sig (env : Env) (digest : Digest512) (mldsa_pub_key : ImageMldsaPubKey)
    (mldsa_sig : ImageMldsaSignature) (is_owner : Bool) : Except CaliptraError Unit := do
  let result ←
    match env.mldsa87_verify digest mldsa_pub_key mldsa_sig with
    | .error _ =>
        throw (if is_owner then
          CaliptraError.IMAGE_VERIFIER_ERR_OWNER_MLDSA_VERIFY_FAILURE
        else
          CaliptraError.IMAGE_VERIFIER_ERR_VENDOR_MLDSA_VERIFY_FAILURE)
    | .ok r => pure r
  if result ≠ Mldsa87Result.Success then
    throw (if is_owner then
      CaliptraError.IMAGE_VERIFIER_ERR_OWNER_MLDSA_SIGNATURE_INVALID
    else
      CaliptraError.IMAGE_VERIFIER_ERR_VENDOR_MLDSA_SIGNATURE_INVALID)
  pure ()

/-- verifier.rs `verify_vendor_sig` (lines 831–882): inline ECC checks with
vendor-specific error codes, then the PQC branch (an MLDSA signature without
a SHA-512 digest in the holder is its own error). -/
def verify_vendor_sig (env : Env) (digest_holder : ImageDigestHolder)
    (ecc_info : ImageEccPubKey × ImageEccSignature) (pqc_info : PqcKeyInfo) :
    Except CaliptraError Unit := do
  let (ecc_pub_key, ecc_sig) := ecc_info
  if ecc_pub_key.x = ZERO_DIGEST ∨ ecc_pub_key.y = ZERO_DIGEST then
    throw .IMAGE_VERIFIER_ERR_VENDOR_ECC_PUB_KEY_INVALID_ARG
  if ecc_sig.r = ZERO_DIGEST ∨ ecc_sig.s = ZERO_DIGEST then
    throw .IMAGE_VERIFIER_ERR_VENDOR_ECC_SIGNATURE_INVALID_ARG
  let verify_r ←
    match env.ecc384_verify digest_holder.digest_384 ecc_pub_key ecc_sig with
    | .error _ => throw .IMAGE_VERIFIER_ERR_VENDOR_ECC_VERIFY_FAILURE
    | .ok r => pure r
  if verify_r ≠ ecc_sig.r then
    throw .IMAGE_VERIFIER_ERR_VENDOR_ECC_SIGNATURE_INVALID
  match pqc_info with
  | PqcKeyInfo.Lms lms_pub_key lms_sig =>
      verify_lms_sig env digest_holder.digest_384 lms_pub_key lms_sig false
  | PqcKeyInfo.Mldsa mldsa_pub_key mldsa_sig =>
      match digest_holder.digest_512 with
      | some digest_512 => verify_mldsa_sig env digest_512 mldsa_pub_key mldsa_sig false
      | none => throw .IMAGE_VERIFIER_ERR_VENDOR_MLDSA_DIGEST_MISSING

/-- verifier.rs `verify_owner_sig` (lines 884–909). -/
def verify_owner_sig (env : Env) (digest_holder : ImageDigestHolder)
    (ecc_info : ImageEccPubKey × ImageEccSignature) (pqc_info : PqcKeyInfo) :
    Except CaliptraError Unit := do
  verify_ecc_sig env digest_holder.digest_384 ecc_info.1 ecc_info.2 true
  match pqc_info with
  | PqcKeyInfo.Lms lms_pub_key lms_sig =>
      verify_lms_sig env digest_holder.digest_384 lms_pub_key lms_sig true
  | PqcKeyInfo.Mldsa mldsa_pub_key mldsa_sig =>
      match digest_holder.digest_512 with
      | some digest_512 => verify_mldsa_sig env digest_512 mldsa_pub_key mldsa_sig true
      | none => throw .IMAGE_VERIFIER_ERR_OWNER_MLDSA_DIGEST_MISSING

/-- verifier.rs `verify_header` (lines 658–763): vendor and owner header
digests (SHA-512 variants only on the MLDSA path), vendor signatures, the
header/preamble key-index cross-checks, then owner signatures; returns the
TOC info `(len, digest)` read from the header. -/
def verify_header (env : Env) (header : ImageHeader) (info : HeaderInfo) :
    Except CaliptraError (Nat × Digest384) := do
  let range := header_range
  let vendor_digest_384 ←
    match env.sha384_digest range.1 vendor_header_len with
    | .error _ => throw .IMAGE_VERIFIER_ERR_HEADER_DIGEST_FAILURE
    | .ok d => pure d
  let owner_digest_384 ←
    match env.sha384_digest range.1 (range.2 - range.1) with
    | .error _ => throw .IMAGE_VERIFIER_ERR_HEADER_DIGEST_FAILURE
    | .ok d => pure d
  let digests_512 ←
    match info.vendor_pqc_info with
    | PqcKeyInfo.Mldsa _ _ => do
        let v ←
          match env.sha512_digest range.1 vendor_header_len with
          | .error _ => throw .IMAGE_VERIFIER_ERR_HEADER_DIGEST_FAILURE
          | .ok d => pure d
        let o ←
          match env.sha512_digest range.1 (range.2 - range.1) with
          | .error _ => throw .IMAGE_VERIFIER_ERR_HEADER_DIGEST_FAILURE
          | .ok d => pure d
        pure (some v, some o)
    | PqcKeyInfo.Lms _ _ => pure (none, none)
  verify_vendor_sig env
    { digest_384 := vendor_digest_384, digest_512 := digests_512.1 }
    info.vendor_ecc_info info.vendor_pqc_info
  if header.vendor_ecc_pub_key_idx ≠ info.vendor_ecc_pub_key_idx then
    throw .IMAGE_VERIFIER_ERR_VENDOR_ECC_PUB_KEY_INDEX_MISMATCH
  if header.vendor_pqc_pub_key_idx ≠ info.vendor_pqc_pub_key_idx then
    throw .IMAGE_VERIFIER_ERR_VENDOR_PQC_PUB_KEY_INDEX_MISMATCH
  verify_owner_sig env
    { digest_384 := owner_digest_384, digest_512 := digests_512.2 }
    info.owner_ecc_info info.owner_pqc_info
  pure (header.toc_len, header.toc_digest)

/-- verifier.rs `verify_toc` (lines 1012–1106): entry count, TOC digest,
component sizes, total length, in-bundle geometry, and ICCM load-range
geometry (inclusive bounds, wrapping `u32` adds reported as overflow). -/
def verify_toc (env : Env) (m : ImageManifest) (toc_len : Nat)
    (toc_digest : Digest384) (img_bundle_sz : Nat) : Except CaliptraError Unit := do
  if toc_len ≠ MAX_TOC_ENTRY_COUNT then
    throw .IMAGE_VERIFIER_ERR_TOC_ENTRY_COUNT_INVALID
  let range := toc_range
  let actual ←
    match env.sha384_digest range.1 (range.2 - range.1) with
    | .error _ => throw .IMAGE_VERIFIER_ERR_TOC_DIGEST_FAILURE
    | .ok d => pure d
  if toc_digest ≠ actual then
    throw .IMAGE_VERIFIER_ERR_TOC_DIGEST_MISMATCH
  if m.fmc.image_size = 0 then
    throw .IMAGE_VERIFIER_ERR_FMC_SIZE_ZERO
  if m.runtime.image_size = 0 then
    throw .IMAGE_VERIFIER_ERR_RUNTIME_SIZE_ZERO
  let img_len := m.size + m.fmc.image_size + m.runtime.image_size
  if img_len > img_bundle_sz then
    throw .IMAGE_VERIFIER_ERR_IMAGE_LEN_MORE_THAN_BUNDLE_SIZE
  let fmc_range ← m.fmc.image_range
  let runtime_range ← m.runtime.image_range
  if fmc_range.1 < runtime_range.2 ∧ fmc_range.2 > runtime_range.1 then
    throw .IMAGE_VERIFIER_ERR_FMC_RUNTIME_OVERLAP
  if fmc_range.2 > runtime_range.1 then
    throw .IMAGE_VERIFIER_ERR_FMC_RUNTIME_INCORRECT_ORDER
  let fmc_load_addr_start := m.fmc.load_addr
  if m.fmc.load_addr + (m.fmc.image_size - 1) ≥ U32_MOD then
    throw .IMAGE_VERIFIER_ERR_FMC_LOAD_ADDRESS_IMAGE_SIZE_ARITHMETIC_OVERFLOW
  let fmc_load_addr_end := m.fmc.load_addr + (m.fmc.image_size - 1)
  let runtime_load_addr_start := m.runtime.load_addr
  if m.runtime.load_addr + (m.runtime.image_size - 1) ≥ U32_MOD then
    throw .IMAGE_VERIFIER_ERR_RUNTIME_LOAD_ADDRESS_IMAGE_SIZE_ARITHMETIC_OVERFLOW
  let runtime_load_addr_end := m.runtime.load_addr + (m.runtime.image_size - 1)
  if fmc_load_addr_start ≤ runtime_load_addr_end ∧
      fmc_load_addr_end ≥ runtime_load_addr_start then
    throw .IMAGE_VERIFIER_ERR_FMC_RUNTIME_LOAD_ADDR_OVERLAP
  pure ()

/-- verifier.rs `verify_fmc` (lines 1128–1195): FMC image digest, ICCM load
address and entry point checks, and in update reset the equality with the
data-vault FMC digest. -/
def verify_fmc (env : Env) (verify_info : ImageTocEntry) (reason : ResetReason) :
    Except CaliptraError ImageVerificationExeInfo := do
  let range ← verify_info.image_range
  let actual ←
    match env.sha384_digest range.1 (range.2 - range.1) with
    | .error _ => throw .IMAGE_VERIFIER_ERR_FMC_DIGEST_FAILURE
    | .ok d => pure d
  if verify_info.digest ≠ actual then
    throw .IMAGE_VERIFIER_ERR_FMC_DIGEST_MISMATCH
  if ¬ env.iccm_contains verify_info.load_addr ∨
      ¬ env.iccm_contains (wrap32 (verify_info.load_addr + verify_info.size + (U32_MOD - 1))) then
    throw .IMAGE_VERIFIER_ERR_FMC_LOAD_ADDR_INVALID
  if verify_info.load_addr % 4 ≠ 0 then
    throw .IMAGE_VERIFIER_ERR_FMC_LOAD_ADDR_UNALIGNED
  if ¬ env.iccm_contains verify_info.entry_point then
    throw .IMAGE_VERIFIER_ERR_FMC_ENTRY_POINT_INVALID
  if verify_info.entry_point % 4 ≠ 0 then
    throw .IMAGE_VERIFIER_ERR_FMC_ENTRY_POINT_UNALIGNED
  if reason = ResetReason.UpdateReset then
    if actual ≠ env.get_fmc_digest_dv then
      throw .IMAGE_VERIFIER_ERR_UPDATE_RESET_FMC_DIGEST_MISMATCH
  pure {
    load_addr := verify_info.load_addr
    entry_point := verify_info.entry_point
    digest := verify_info.digest
    size := verify_info.size
  }

/-- verifier.rs `verify_runtime` (lines 1199–1254). -/
def verify_runtime (env : Env) (verify_info : ImageTocEntry) :
    Except CaliptraError ImageVerificationExeInfo := do
  let range ← verify_info.image_range
  let actual ←
    match env.sha384_digest range.1 (range.2 - range.1) with
    | .error _ => throw .IMAGE_VERIFIER_ERR_RUNTIME_DIGEST_FAILURE
    | .ok d => pure d
  if verify_info.digest ≠ actual then
    throw .IMAGE_VERIFIER_ERR_RUNTIME_DIGEST_MISMATCH
  if ¬ env.iccm_contains verify_info.load_addr ∨
      ¬ env.iccm_contains (wrap32 (verify_info.load_addr + verify_info.size + (U32_MOD - 1))) then
    throw .IMAGE_VERIFIER_ERR_RUNTIME_LOAD_ADDR_INVALID
  if verify_info.load_addr % 4 ≠ 0 then
    throw .IMAGE_VERIFIER_ERR_RUNTIME_LOAD_ADDR_UNALIGNED
  if ¬ env.iccm_contains verify_info.entry_point then
    throw .IMAGE_VERIFIER_ERR_RUNTIME_ENTRY_POINT_INVALID
  if verify_info.entry_point % 4 ≠ 0 then
    throw .IMAGE_VERIFIER_ERR_RUNTIME_ENTRY_POINT_UNALIGNED
  pure {
    load_addr := verify_info.load_addr
    entry_point := verify_info.entry_point
    digest := verify_info.digest
    size := verify_info.size
  }

/-- verifier.rs `verify` (lines 91–165): the fixed phase pipeline.  The
environment's `pqc_key_type_fuse` accessor is modelled from the spec (its
implementation is not under src/): it fails when the fuse value is not a
valid key-type encoding. -/
def verify (env : Env) (m : ImageManifest) (img_bundle_sz : Nat)
    (reason : ResetReason) : Except CaliptraError ImageVerificationInfo := do
  if m.marker ≠ MANIFEST_MARKER then
    throw .IMAGE_VERIFIER_ERR_MANIFEST_MARKER_MISMATCH
  if m.size ≠ IMAGE_MANIFEST_BYTE_SIZE then
    throw .IMAGE_VERIFIER_ERR_MANIFEST_SIZE_MISMATCH
  let pqc_key_type ←
    match FwVerificationPqcKeyType.from_u8 m.pqc_key_type with
    | none => throw .IMAGE_VERIFIER_ERR_PQC_KEY_TYPE_INVALID
    | some t => pure t
  let pqc_key_type_fuse ←
    match env.pqc_key_type_fuse with
    | none => throw .IMAGE_VERIFIER_ERR_PQC_KEY_TYPE_INVALID
    | some t => pure t
  if pqc_key_type ≠ pqc_key_type_fuse then
    throw .IMAGE_VERIFIER_ERR_PQC_KEY_TYPE_MISMATCH
  let header_info ← verify_preamble env m.preamble reason pqc_key_type
  let toc_info ← verify_header env m.header header_info
  verify_toc env m toc_info.1 toc_info.2 img_bundle_sz
  let fmc_info ← verify_fmc env m.fmc reason
  let runtime_info ← verify_runtime env m.runtime
  verify_svn env m.header.svn
  pure {
    vendor_ecc_pub_key_idx := header_info.vendor_ecc_pub_key_idx
    vendor_pqc_pub_key_idx := header_info.vendor_pqc_pub_key_idx
    owner_pub_keys_digest := header_info.owner_pub_keys_digest
    owner_pub_keys_digest_in_fuses := header_info.owner_pub_keys_digest_in_fuses
    fmc := fmc_info
    runtime := runtime_info
    fw_svn := m.header.svn
    effective_fuse_svn := effective_fuse_svn env
    pqc_key_type
  }

/-- The data vault (caliptra_drivers::DataVault): the persistent fields the
embedded flows read and write.  The setter functions of the drivers crate are
plain field writes; they are modelled as record updates. -/
structure DataVault where
  fmc_tci : Digest384
  rt_tci : Digest384
  cold_boot_fw_svn : Nat
  fw_svn : Nat
  fw_min_svn : Nat
  fmc_entry_point : Nat
  rt_entry_point : Nat
  owner_pk_hash : Digest384
  vendor_ecc_pk_index : Nat
  vendor_pqc_pk_index : Nat
  manifest_addr : Nat
deriving DecidableEq

/-- Modelled from the spec (§4.6): the firmware key ladder is an iterated-HMAC
chain rooted in the LDevID CDI; a chain is characterised by its length, so the
model carries the length.  `key_ladder::initialize_key_ladder(env, chain_len)`
constructs a chain of `chain_len` steps. -/
def key_ladder_init (chain_len : Nat) : Nat := chain_len

/-- Modelled from the spec (§4.6): `key_ladder::extend_key_ladder` lengthens
the chain by `num_steps` HMAC steps; it never removes steps. -/
def extend_key_ladder (chain_len : Nat) (num_steps : Nat) : Nat :=
  chain_len + num_steps

/-- fw_processor.rs `FirmwareProcessor::populate_data_vault` (lines 638–657):
the cold-boot data-vault population from the verification info. -/
def cold_boot_populate_data_vault (dv : DataVault) (info : ImageVerificationInfo)
    (manifest_address : Nat) : DataVault :=
  { dv with
    fmc_tci := info.fmc.digest
    cold_boot_fw_svn := info.fw_svn
    fmc_entry_point := info.fmc.entry_point
    owner_pk_hash := info.owner_pub_keys_digest
    vendor_ecc_pk_index := info.vendor_ecc_pub_key_idx
    vendor_pqc_pk_index := info.vendor_pqc_pub_key_idx
    rt_tci := info.runtime.digest
    fw_svn := info.fw_svn
    fw_min_svn := info.fw_svn
    rt_entry_point := info.runtime.entry_point
    manifest_addr := manifest_address }

/-- fw_processor.rs `FirmwareProcessor::populate_fw_key_ladder` (lines
659–683): reads the data-vault firmware SVN, rejects values above
`MAX_FIRMWARE_SVN` with `FW_PROC_SVN_TOO_LARGE`, and initializes the chain to
length `MAX_FIRMWARE_SVN − svn`. -/
def populate_fw_key_ladder (dv : DataVault) : Except CaliptraError Nat := do
  let svn := dv.fw_svn
  if svn > MAX_FIRMWARE_SVN then
    throw .FW_PROC_SVN_TOO_LARGE
  pure (key_ladder_init (MAX_FIRMWARE_SVN - svn))

/-- update_reset.rs `UpdateResetFlow::populate_data_vault` (lines 222–247):
new runtime TCI, new firmware SVN, min-SVN clamped by `min`, runtime entry
point, and the key ladder extended by the min-SVN decrement. -/
def update_reset_populate_data_vault (dv : DataVault) (chain_len : Nat)
    (info : ImageVerificationInfo) : DataVault × Nat :=
  let dv1 := { dv with rt_tci := info.runtime.digest }
  let old_min_svn := dv1.fw_min_svn
  let new_min_svn := min old_min_svn info.fw_svn
  let dv2 := { dv1 with
    fw_svn := info.fw_svn
    fw_min_svn := new_min_svn
    rt_entry_point := info.runtime.entry_point }
  let decrement_by := old_min_svn - new_min_svn
  (dv2, extend_key_ladder chain_len decrement_by)

/-- Stash-measurement mailbox request
(caliptra_common::mailbox_api::StashMeasurementReq, checksum header aside). -/
structure StashMeasurementReq where
  measurement : Nat
  metadata : Nat
  context : Nat
  svn : Nat
deriving DecidableEq

/-- Measurement-log entry (caliptra_drivers::pcr_log::MeasurementLogEntry);
the fixed PCR-log bookkeeping fields (entry id, PCR index bit) are constants
and are dropped. -/
structure MeasurementLogEntry where
  pcr_data : Nat
  metadata : Nat
  context : Nat
  svn : Nat
deriving DecidableEq

/-- MEASUREMENT_MAX_COUNT = 8 (caliptra_drivers; the value is pinned by the
spec and by src/rom/dev/tests/rom_integration_tests/test_fmcalias_derivation.rs,
which also fixes the measurement-log capacity at 8 entries). -/
def MEASUREMENT_MAX_COUNT : Nat := 8

/-- The slice of ROM state the stash-measurement command path touches:
`fht.meas_log_index`, the measurement log, and PCR31. -/
structure MboxPdState where
  meas_log_index : Nat
  measurement_log : List MeasurementLogEntry
  pcr31 : Digest384
deriving DecidableEq

/-- fw_processor.rs `FirmwareProcessor::log_measurement` (lines 819–847):
write the entry at `fht.meas_log_index` (log exhausted if out of range) and
increment the index. -/
def log_measurement (st : MboxPdState) (req : StashMeasurementReq) :
    Except CaliptraError MboxPdState :=
  if st.meas_log_index < st.measurement_log.length then
    .ok { st with
      measurement_log := st.measurement_log.set st.meas_log_index
        { pcr_data := req.measurement, metadata := req.metadata,
          context := req.context, svn := req.svn }
      meas_log_index := st.meas_log_index + 1 }
  else
    .error .ROM_GLOBAL_MEASUREMENT_LOG_EXHAUSTED

/-- fw_processor.rs `FirmwareProcessor::extend_measurement` (lines 792–807):
extend PCR31 with the measurement, then log it.  The SHA-384 PCR extension
performed by the PCR-bank driver (not under src/) is the abstract extension
function `ext`. -/
def extend_measurement (ext : Digest384 → Nat → Digest384) (st : MboxPdState)
    (req : StashMeasurementReq) : Except CaliptraError MboxPdState :=
  log_measurement { st with pcr31 := ext st.pcr31 req.measurement } req

/-- The STASH_MEASUREMENT arm of `FirmwareProcessor::process_mailbox_commands`
(fw_processor.rs lines 316–341) together with `stash_measurement` (lines
766–779): at `MEASUREMENT_MAX_COUNT` stored measurements the transaction is
completed with failure and the fatal limit error is returned; otherwise the
request is read (`chksum_ok` abstracts `copy_req_verify_chksum`, lines
728–753) and the measurement extended and logged. -/
def stash_measurement_cmd (ext : Digest384 → Nat → Digest384) (st : MboxPdState)
    (req : StashMeasurementReq) (chksum_ok : Bool) :
    Except CaliptraError MboxPdState := do
  if st.meas_log_index = MEASUREMENT_MAX_COUNT then
    throw .FW_PROC_MAILBOX_STASH_MEASUREMENT_MAX_LIMIT
  if ¬ chksum_ok then
    throw .FW_PROC_MAILBOX_INVALID_CHECKSUM
  extend_measurement ext st req

/-- A sequence of well-formed (checksum-valid) STASH_MEASUREMENT commands
processed in submission order by the pre-firmware-load mailbox loop. -/
def run_stash_cmds (ext : Digest384 → Nat → Digest384) (st : MboxPdState) :
    List StashMeasurementReq → Except CaliptraError MboxPdState
  | [] => .ok st
  | r :: rest => do
      let st1 ← stash_measurement_cmd ext st r true
      run_stash_cmds ext st1 rest

/-- Oracle for the engines reached by `Crypto::ecc384_key_gen` (crypto.rs):
whether the HMAC-KDF into the temporary slot succeeds, the result of the ECC
key-pair engine, and whether the key-vault erase succeeds.  The engines live
in the drivers crate (not under src/); only their success or failure steers
the control flow of `ecc384_key_gen`. -/
structure KeyGenOracle where
  hmac_kdf_ok : Bool
  key_pair_result : Except Unit Nat
  erase_ok : Bool

/-- crypto.rs `Crypto::ecc384_key_gen` (lines 148–173), instrumented with a
flag recording whether `key_vault.erase_key(KEY_ID_TMP)` was invoked on the
taken path.  The concrete engine error codes are placeholders
(`ROM_KDF_FAILURE`, `ROM_KEY_PAIR_FAILURE`, `ROM_ERASE_FAILURE`): the Rust
code propagates whatever error the engine returned, and only success or
failure matters here.  Control flow: the KDF result is propagated with `?`
before the key-pair call; the key-pair result is captured, the erase runs,
and only then is the key-pair result propagated. -/
def ecc384_key_gen (o : KeyGenOracle) (priv_key : Nat) :
    Except CaliptraError (Nat × Nat) × Bool :=
  if ¬ o.hmac_kdf_ok then
    (.error .ROM_KDF_FAILURE, false)
  else
    let pub_key := o.key_pair_result
    if ¬ o.erase_ok then
      (.error .ROM_ERASE_FAILURE, true)
    else
      match pub_key with
      | .error _ => (.error .ROM_KEY_PAIR_FAILURE, true)
      | .ok pk => (.ok (priv_key, pk), true)

/-! ### Plumbing lemmas for the `Except` monad -/

theorem except_bind_ok {α β ε : Type} (a : α) (k : α → Except ε β) :
    (Except.ok a >>= k) = k a := rfl

theorem except_bind_err {α β ε : Type} (e : ε) (k : α → Except ε β) :
    ((Except.error e : Except ε α) >>= k) = Except.error e := rfl

theorem except_throw_eq {α ε : Type} (e : ε) :
    (throw e : Except ε α) = Except.error e := rfl

theorem except_pure_eq {α ε : Type} (a : α) :
    (pure a : Except ε α) = Except.ok a := rfl

instance exceptDecEq {ε α : Type} [DecidableEq ε] [DecidableEq α] :
    DecidableEq (Except ε α) := fun a b =>
  match a, b with
  | .ok x, .ok y =>
      if h : x = y then .isTrue (by rw [h])
      else .isFalse (by intro hc; cases hc; exact h rfl)
  | .ok _, .error _ => .isFalse (fun hc => Except.noConfusion hc)
  | .error _, .ok _ => .isFalse (fun hc => Except.noConfusion hc)
  | .error x, .error y =>
      if h : x = y then .isTrue (by rw [h])
      else .isFalse (by intro hc; cases hc; exact h rfl)

/-- An error code is not one of the two SVN gate errors. -/
abbrev notSvnErr (e : CaliptraError) : Prop :=
  e ≠ CaliptraError.IMAGE_VERIFIER_ERR_FIRMWARE_SVN_LESS_THAN_FUSE ∧
  e ≠ CaliptraError.IMAGE_VERIFIER_ERR_FIRMWARE_SVN_GREATER_THAN_MAX_SUPPORTED

theorem verify_owner_pk_digest_err_not_svn (env : Env) (reason : ResetReason)
    (e : CaliptraError) (h : verify_owner_pk_digest env reason = .error e) :
    notSvnErr e := by
  unfold verify_owner_pk_digest at h
  simp only [bind, Except.bind, except_throw_eq, except_pure_eq] at h
  repeat' split at h
  all_goals first
    | exact Except.noConfusion h
    | (cases h; exact ⟨by decide, by decide⟩)

theorem verify_vendor_ecc_pk_idx_err_not_svn (env : Env) (p : ImagePreamble)
    (r : ResetReason) (e : CaliptraError)
    (h : verify_vendor_ecc_pk_idx env p r = .error e) : notSvnErr e := by
  unfold verify_vendor_ecc_pk_idx at h
  simp only [bind, Except.bind, except_throw_eq, except_pure_eq] at h
  repeat' split at h
  all_goals first
    | exact Except.noConfusion h
    | (cases h; exact ⟨by decide, by decide⟩)

theorem verify_vendor_pqc_pk_idx_err_not_svn (env : Env) (p : ImagePreamble)
    (r : ResetReason) (rev : Nat) (e : CaliptraError)
    (h : verify_vendor_pqc_pk_idx env p r rev = .error e) : notSvnErr e := by
  unfold verify_vendor_pqc_pk_idx at h
  simp only [bind, Except.bind, except_throw_eq, except_pure_eq] at h
  repeat' split at h
  all_goals first
    | exact Except.noConfusion h
    | (cases h; exact ⟨by decide, by decide⟩)

theorem verify_active_ecc_pub_key_digest_err_not_svn (env : Env)
    (p : ImagePreamble) (e : CaliptraError)
    (h : verify_active_ecc_pub_key_digest env p = .error e) : notSvnErr e := by
  unfold verify_active_ecc_pub_key_digest at h
  simp only [bind, Except.bind, except_throw_eq, except_pure_eq] at h
  repeat' split at h
  all_goals first
    | exact Except.noConfusion h
    | (cases h; exact ⟨by decide, by decide⟩)

theorem verify_active_pqc_pub_key_digest_err_not_svn (env : Env)
    (p : ImagePreamble) (t : FwVerificationPqcKeyType) (e : CaliptraError)
    (h : verify_active_pqc_pub_key_digest env p t = .error e) : notSvnErr e := by
  unfold verify_active_pqc_pub_key_digest at h
  simp only [bind, Except.bind, except_throw_eq, except_pure_eq] at h
  repeat' split at h
  all_goals first
    | exact Except.noConfusion h
    | (cases h; exact ⟨by decide, by decide⟩)

set_option maxHeartbeats 2000000 in
theorem verify_vendor_pub_key_info_digest_err_not_svn (env : Env)
    (p : ImagePreamble) (t : FwVerificationPqcKeyType) (e : CaliptraError)
    (h : verify_vendor_pub_key_info_digest env p t = .error e) : notSvnErr e := by
  unfold verify_vendor_pub_key_info_digest at h
  cases h1 : verify_active_ecc_pub_key_digest env p with
  | error e1 =>
      rw [h1] at h
      simp only [bind, Except.bind, except_throw_eq, except_pure_eq] at h
      repeat' split at h
      all_goals first
        | exact Except.noConfusion h
        | (cases h; exact ⟨by decide, by decide⟩)
        | (cases h; exact verify_active_ecc_pub_key_digest_err_not_svn _ _ _ h1)
  | ok u =>
      rw [h1] at h
      simp only [bind, Except.bind, except_throw_eq, except_pure_eq] at h
      repeat' split at h
      all_goals first
        | exact Except.noConfusion h
        | (cases h; exact ⟨by decide, by decide⟩)
        | exact verify_active_pqc_pub_key_digest_err_not_svn _ _ _ _ h

theorem verify_preamble_err_not_svn (env : Env) (p : ImagePreamble)
    (r : ResetReason) (t : FwVerificationPqcKeyType) (e : CaliptraError)
    (h : verify_preamble env p r t = .error e) : notSvnErr e := by
  unfold verify_preamble at h
  cases h1 : verify_vendor_pub_key_info_digest env p t with
  | error e1 =>
      rw [h1] at h
      simp only [bind, Except.bind, except_throw_eq, except_pure_eq] at h
      cases h
      exact verify_vendor_pub_key_info_digest_err_not_svn _ _ _ _ h1
  | ok u1 =>
  rw [h1] at h
  simp only [bind, Except.bind, except_throw_eq, except_pure_eq] at h
  cases h2 : verify_owner_pk_digest env r with
  | error e2 =>
      rw [h2] at h
      simp only [Except.bind] at h
      cases h
      exact verify_owner_pk_digest_err_not_svn _ _ _ h2
  | ok v2 =>
  rw [h2] at h
  simp only [Except.bind] at h
  cases h3 : verify_vendor_ecc_pk_idx env p r with
  | error e3 =>
      rw [h3] at h
      simp only [Except.bind] at h
      cases h
      exact verify_vendor_ecc_pk_idx_err_not_svn _ _ _ _ h3
  | ok v3 =>
  rw [h3] at h
  simp only [Except.bind] at h
  cases t with
  | LMS =>
      cases h4 : verify_vendor_pqc_pk_idx env p r env.vendor_lms_pub_key_revocation with
      | error e4 =>
          rw [h4] at h
          simp only [bind, Except.bind, except_throw_eq, except_pure_eq] at h
          repeat' split at h
          all_goals first
            | exact Except.noConfusion h
            | (cases h; exact ⟨by decide, by decide⟩)
            | (cases h; exact verify_vendor_pqc_pk_idx_err_not_svn _ _ _ _ _ h4)
      | ok v4 =>
          rw [h4] at h
          simp only [bind, Except.bind, except_throw_eq, except_pure_eq] at h
          repeat' split at h
          all_goals first
            | exact Except.noConfusion h
            | (cases h; exact ⟨by decide, by decide⟩)
  | MLDSA =>
      cases h4 : verify_vendor_pqc_pk_idx env p r env.vendor_mldsa_pub_key_revocation with
      | error e4 =>
          rw [h4] at h
          simp only [bind, Except.bind, except_throw_eq, except_pure_eq] at h
          repeat' split at h
          all_goals first
            | exact Except.noConfusion h
            | (cases h; exact ⟨by decide, by decide⟩)
            | (cases h; exact verify_vendor_pqc_pk_idx_err_not_svn _ _ _ _ _ h4)
      | ok v4 =>
          rw [h4] at h
          simp only [bind, Except.bind, except_throw_eq, except_pure_eq] at h
          repeat' split at h
          all_goals first
            | exact Except.noConfusion h
            | (cases h; exact ⟨by decide, by decide⟩)

theorem exceptBind_err_elim {α β : Type} {f : Except CaliptraError α}
    {k : α → Except CaliptraError β} {e : CaliptraError}
    (h : Except.bind f k = Except.error e)
    (hf : ∀ a, f = Except.error a → notSvnErr a)
    (hk : ∀ v a, k v = Except.error a → notSvnErr a) : notSvnErr e := by
  cases hf1 : f with
  | error a =>
      rw [hf1] at h
      simp only [Except.bind] at h
      cases h
      exact hf _ hf1
  | ok v =>
      rw [hf1] at h
      simp only [Except.bind] at h
      exact hk v e h

theorem verify_ecc_sig_err_not_svn (env : Env) (d : Digest384)
    (pk : ImageEccPubKey) (sig : ImageEccSignature) (io : Bool) (e : CaliptraError)
    (h : verify_ecc_sig env d pk sig io = .error e) : notSvnErr e := by
  unfold verify_ecc_sig at h
  simp only [bind, Except.bind, except_throw_eq, except_pure_eq] at h
  repeat' split at h
  all_goals first
    | exact Except.noConfusion h
    | (cases h; exact ⟨by decide, by decide⟩)

theorem verify_lms_sig_err_not_svn (env : Env) (d : Digest384)
    (pk : ImageLmsPublicKey) (sig : ImageLmsSignature) (io : Bool) (e : CaliptraError)
    (h : verify_lms_sig env d pk sig io = .error e) : notSvnErr e := by
  unfold verify_lms_sig at h
  simp only [bind, Except.bind, except_throw_eq, except_pure_eq] at h
  repeat' split at h
  all_goals first
    | exact Except.noConfusion h
    | (cases h; exact ⟨by decide, by decide⟩)

theorem verify_mldsa_sig_err_not_svn (env : Env) (d : Digest512)
    (pk : ImageMldsaPubKey) (sig : ImageMldsaSignature) (io : Bool) (e : CaliptraError)
    (h : verify_mldsa_sig env d pk sig io = .error e) : notSvnErr e := by
  unfold verify_mldsa_sig at h
  simp only [bind, Except.bind, except_throw_eq, except_pure_eq] at h
  repeat' split at h
  all_goals first
    | exact Except.noConfusion h
    | (cases h; exact ⟨by decide, by decide⟩)

theorem verify_vendor_sig_err_not_svn (env : Env) (dh : ImageDigestHolder)
    (ecc_info : ImageEccPubKey × ImageEccSignature) (pqc_info : PqcKeyInfo)
    (e : CaliptraError)
    (h : verify_vendor_sig env dh ecc_info pqc_info = .error e) : notSvnErr e := by
  unfold verify_vendor_sig at h
  simp only [bind, Except.bind, except_throw_eq, except_pure_eq] at h
  repeat' split at h
  all_goals first
    | exact Except.noConfusion h
    | (cases h; exact ⟨by decide, by decide⟩)
    | exact verify_lms_sig_err_not_svn _ _ _ _ _ _ h
    | exact verify_mldsa_sig_err_not_svn _ _ _ _ _ _ h

theorem verify_owner_sig_err_not_svn (env : Env) (dh : ImageDigestHolder)
    (ecc_info : ImageEccPubKey × ImageEccSignature) (pqc_info : PqcKeyInfo)
    (e : CaliptraError)
    (h : verify_owner_sig env dh ecc_info pqc_info = .error e) : notSvnErr e := by
  unfold verify_owner_sig at h
  cases h1 : verify_ecc_sig env dh.digest_384 ecc_info.1 ecc_info.2 true with
  | error e1 =>
      rw [h1] at h
      simp only [bind, Except.bind] at h
      cases h
      exact verify_ecc_sig_err_not_svn _ _ _ _ _ _ h1
  | ok u =>
      rw [h1] at h
      simp only [bind, Except.bind, except_throw_eq, except_pure_eq] at h
      repeat' split at h
      all_goals first
        | exact Except.noConfusion h
        | (cases h; exact ⟨by decide, by decide⟩)
        | exact verify_lms_sig_err_not_svn _ _ _ _ _ _ h
        | exact verify_mldsa_sig_err_not_svn _ _ _ _ _ _ h

set_option maxHeartbeats 2000000 in
theorem verify_header_err_not_svn (env : Env) (header : ImageHeader)
    (info : HeaderInfo) (e : CaliptraError)
    (h : verify_header env header info = .error e) : notSvnErr e := by
  unfold verify_header at h
  simp only [bind, Except.bind, except_throw_eq, except_pure_eq] at h
  repeat' split at h
  all_goals first
    | exact Except.noConfusion h
    | (cases h; first
        | exact ⟨by decide, by decide⟩
        | exact verify_vendor_sig_err_not_svn _ _ _ _ _ (by assumption)
        | exact verify_owner_sig_err_not_svn _ _ _ _ _ (by assumption))

theorem image_range_err_not_svn (entry : ImageTocEntry) (e : CaliptraError)
    (h : entry.image_range = .error e) : notSvnErr e := by
  unfold ImageTocEntry.image_range at h
  split at h
  · exact Except.noConfusion h
  · cases h; exact ⟨by decide, by decide⟩

set_option maxHeartbeats 2000000 in
theorem verify_toc_err_not_svn (env : Env) (m : ImageManifest) (tl : Nat)
    (td : Digest384) (sz : Nat) (e : CaliptraError)
    (h : verify_toc env m tl td sz = .error e) : notSvnErr e := by
  unfold verify_toc at h
  simp only [bind, Except.bind, except_throw_eq, except_pure_eq,
    ImageTocEntry.image_size] at h
  repeat' split at h
  all_goals first
    | exact Except.noConfusion h
    | (cases h; first
        | exact ⟨by decide, by decide⟩
        | exact image_range_err_not_svn _ _ (by assumption))

set_option maxHeartbeats 2000000 in
theorem verify_fmc_err_not_svn (env : Env) (vi : ImageTocEntry)
    (r : ResetReason) (e : CaliptraError)
    (h : verify_fmc env vi r = .error e) : notSvnErr e := by
  unfold verify_fmc at h
  simp only [bind, Except.bind, except_throw_eq, except_pure_eq] at h
  repeat' split at h
  all_goals first
    | exact Except.noConfusion h
    | (cases h; first
        | exact ⟨by decide, by decide⟩
        | exact image_range_err_not_svn _ _ (by assumption))

set_option maxHeartbeats 2000000 in
theorem verify_runtime_err_not_svn (env : Env) (vi : ImageTocEntry)
    (e : CaliptraError)
    (h : verify_runtime env vi = .error e) : notSvnErr e := by
  unfold verify_runtime at h
  simp only [bind, Except.bind, except_throw_eq, except_pure_eq] at h
  repeat' split at h
  all_goals first
    | exact Except.noConfusion h
    | (cases h; first
        | exact ⟨by decide, by decide⟩
        | exact image_range_err_not_svn _ _ (by assumption))

/-- The two SVN error codes imply that the SVN check gate was open. -/
theorem verify_svn_err_check_required (env : Env) (svn : Nat) (e : CaliptraError)
    (h : verify_svn env svn = .error e) :
    svn_check_required env = true ∧
      (e = CaliptraError.IMAGE_VERIFIER_ERR_FIRMWARE_SVN_GREATER_THAN_MAX_SUPPORTED ∨
       e = CaliptraError.IMAGE_VERIFIER_ERR_FIRMWARE_SVN_LESS_THAN_FUSE) := by
  unfold verify_svn at h
  simp only [bind, Except.bind, except_throw_eq, except_pure_eq] at h
  repeat' split at h
  all_goals first
    | exact Except.noConfusion h
    | (cases h; exact ⟨by assumption, by simp⟩)

/-- If `verify` succeeds then the SVN gate `verify_svn` passed. -/
theorem verify_ok_svn_ok (env : Env) (m : ImageManifest) (sz : Nat)
    (r : ResetReason) (info : ImageVerificationInfo)
    (h : verify env m sz r = .ok info) :
    verify_svn env m.header.svn = .ok () := by
  unfold verify at h
  simp only [bind, Except.bind, except_throw_eq, except_pure_eq] at h
  repeat' split at h
  all_goals first
    | exact Except.noConfusion h
    | assumption

/-- When the SVN check is not required, `verify` can never fail with one of
the two SVN error codes, whatever the manifest, size and reset reason. -/
theorem verify_err_not_svn_of_not_required (env : Env) (m : ImageManifest)
    (sz : Nat) (r : ResetReason) (e : CaliptraError)
    (hreq : svn_check_required env = false)
    (h : verify env m sz r = .error e) : notSvnErr e := by
  unfold verify at h
  simp only [bind, Except.bind, except_throw_eq, except_pure_eq] at h
  repeat' split at h
  all_goals first
    | exact Except.noConfusion h
    | (cases h; first
        | exact ⟨by decide, by decide⟩
        | exact verify_preamble_err_not_svn _ _ _ _ _ (by assumption)
        | exact verify_header_err_not_svn _ _ _ _ (by assumption)
        | exact verify_toc_err_not_svn _ _ _ _ _ _ (by assumption)
        | exact verify_fmc_err_not_svn _ _ _ _ (by assumption)
        | exact verify_runtime_err_not_svn _ _ _ (by assumption)
        | (rcases verify_svn_err_check_required _ _ _ (by assumption) with ⟨hc, _⟩
           rw [hreq] at hc
           exact Bool.noConfusion hc))

/-- A default environment for concrete witnesses: unprovisioned device, all
numeric fields zero, engines failing, parsers empty. -/
def env0 : Env := {
  dev_lifecycle := Lifecycle.Unprovisioned
  anti_rollback_disable := false
  fw_fuse_svn := 0
  vendor_ecc_pub_key_revocation := 0
  vendor_lms_pub_key_revocation := 0
  vendor_mldsa_pub_key_revocation := 0
  vendor_pub_key_info_digest_fuses := 0
  owner_pub_key_digest_fuses := 0
  pqc_key_type_fuse := none
  vendor_ecc_pub_key_idx_dv := 0
  vendor_pqc_pub_key_idx_dv := 0
  owner_pub_key_digest_dv := 0
  get_fmc_digest_dv := 0
  iccm_range_start := 0
  iccm_range_end := 0
  sha384_digest := fun _ _ => .error ()
  sha512_digest := fun _ _ => .error ()
  ecc384_verify := fun _ _ _ => .error ()
  lms_verify := fun _ _ _ => .error ()
  mldsa87_verify := fun _ _ _ => .error ()
  parse_lms_pub_key := fun _ => none
  parse_lms_sig := fun _ => none
  parse_mldsa_pub_key := fun _ => none
  parse_mldsa_sig := fun _ => none }

/-- Environment for the C1 counterexample: provisioned, anti-rollback active,
fuse SVN two above the maximum. -/
def envC1 : Env :=
  { env0 with
    dev_lifecycle := Lifecycle.Production
    fw_fuse_svn := MAX_FIRMWARE_SVN + 2 }

/-- C1 counterexample: the claim as stated is false.  In `envC1` the SVN
check is required and `fw_svn = MAX_FIRMWARE_SVN + 1` is less than the fuse
SVN (`MAX_FIRMWARE_SVN + 2`), yet `verify_svn` does not return
`IMAGE_VERIFIER_ERR_FIRMWARE_SVN_LESS_THAN_FUSE`: the
greater-than-max check fires first. -/
theorem C1_counterexample :
    svn_check_required envC1 = true ∧
    MAX_FIRMWARE_SVN + 1 < envC1.fw_fuse_svn ∧
    verify_svn envC1 (MAX_FIRMWARE_SVN + 1) ≠
      .error CaliptraError.IMAGE_VERIFIER_ERR_FIRMWARE_SVN_LESS_THAN_FUSE ∧
    verify_svn envC1 (MAX_FIRMWARE_SVN + 1) =
      .error CaliptraError.IMAGE_VERIFIER_ERR_FIRMWARE_SVN_GREATER_THAN_MAX_SUPPORTED := by
  refine ⟨rfl, by decide, ?_, rfl⟩
  intro hcontra
  exact CaliptraError.noConfusion (Except.error.inj hcontra)

/-- C1 (amended): the fw_svn-versus-fuse check is performed iff the lifecycle
is not Unprovisioned and anti-rollback is not disabled; when the check is
performed, a fw_svn that is within the supported maximum and below the fuse
SVN yields `IMAGE_VERIFIER_ERR_FIRMWARE_SVN_LESS_THAN_FUSE` (above the
maximum, `IMAGE_VERIFIER_ERR_FIRMWARE_SVN_GREATER_THAN_MAX_SUPPORTED` takes
precedence); when the check is not required, `verify_svn` accepts every SVN
value and `verify` never returns either SVN error. -/
theorem C1_svn_gate (env : Env) (fw_svn : Nat) (m : ImageManifest) (sz : Nat)
    (r : ResetReason) :
    (svn_check_required env = true ↔
      (env.dev_lifecycle ≠ Lifecycle.Unprovisioned ∧
        env.anti_rollback_disable = false)) ∧
    (svn_check_required env = true → fw_svn ≤ MAX_FIRMWARE_SVN →
      fw_svn < env.fw_fuse_svn →
      verify_svn env fw_svn =
        .error CaliptraError.IMAGE_VERIFIER_ERR_FIRMWARE_SVN_LESS_THAN_FUSE) ∧
    (svn_check_required env = false → verify_svn env fw_svn = .ok ()) ∧
    (svn_check_required env = false → ∀ e, verify env m sz r = .error e →
      notSvnErr e) := by
  refine ⟨?_, ?_, ?_, fun hreq e h => verify_err_not_svn_of_not_required
    env m sz r e hreq h⟩
  · unfold svn_check_required
    constructor
    · intro h
      by_cases h1 : env.dev_lifecycle = Lifecycle.Unprovisioned
      · rw [if_pos h1] at h; exact Bool.noConfusion h
      · rw [if_neg h1] at h
        by_cases h2 : env.anti_rollback_disable
        · rw [if_pos h2] at h; exact Bool.noConfusion h
        · exact ⟨h1, by simpa using h2⟩
    · rintro ⟨h1, h2⟩
      rw [if_neg h1, h2]
      simp
  · intro hreq hle hlt
    unfold verify_svn
    rw [hreq]
    simp only [if_true, bind, Except.bind, except_throw_eq, except_pure_eq]
    rw [if_neg (by omega : ¬ fw_svn > MAX_FIRMWARE_SVN), if_pos hlt]
  · intro hreq
    unfold verify_svn
    rw [hreq]
    rfl

/-- An all-zero dummy manifest for witnesses. -/
def m0 : ImageManifest := {
  marker := 0
  size := 0
  pqc_key_type := 0
  preamble := {
    vendor_pub_key_info := {
      ecc_key_descriptor := { version := 0, key_hash_count := 0, key_hash := [] }
      pqc_key_descriptor := { version := 0, key_type := 0, key_hash_count := 0, key_hash := [] } }
    vendor_ecc_pub_key_idx := 0
    vendor_ecc_active_pub_key := { x := 0, y := 0 }
    vendor_pqc_pub_key_idx := 0
    vendor_pqc_active_pub_key := 0
    vendor_sigs_ecc_sig := { r := 0, s := 0 }
    vendor_sigs_pqc_sig := 0
    owner_pub_keys_ecc_pub_key := { x := 0, y := 0 }
    owner_pub_keys_pqc_pub_key := 0
    owner_sigs_ecc_sig := { r := 0, s := 0 }
    owner_sigs_pqc_sig := 0 }
  header := { vendor_ecc_pub_key_idx := 0, vendor_pqc_pub_key_idx := 0,
              svn := 0, toc_len := 0, toc_digest := 0 }
  fmc := { digest := 0, load_addr := 0, entry_point := 0, size := 0, offset := 0 }
  runtime := { digest := 0, load_addr := 0, entry_point := 0, size := 0, offset := 0 } }

/-- C1 witness: the amended theorem applied at a concrete environment on both
sides of the gate. -/
theorem C1_witness :
    verify_svn envC1 3 =
      .error CaliptraError.IMAGE_VERIFIER_ERR_FIRMWARE_SVN_LESS_THAN_FUSE ∧
    verify_svn env0 3 = .ok () := by
  constructor
  · exact (C1_svn_gate envC1 3 m0 0 ResetReason.ColdReset).2.1
      (by decide) (by decide) (by decide)
  · exact (C1_svn_gate env0 3 m0 0 ResetReason.ColdReset).2.2.1 (by decide)

/-- `true` exactly on `ok` results. -/
def exceptIsOk {ε α : Type} : Except ε α → Bool
  | .ok _ => true
  | .error _ => false

/-- SHA-384 oracle of the golden environment: fixed digest tokens for the
regions `verify` hashes on the happy path. -/
def shaG : Nat → Nat → Except Unit Digest384 := fun start len =>
  if start = 12000 then (if len = 600 then .ok 71 else .ok 72)
  else if start = 8000 then .ok 70
  else if start = 13000 then .ok 73
  else if start = 17152 then .ok 74
  else if start = 18176 then .ok 75
  else .error ()

/-- A golden environment on which `verify` succeeds: unprovisioned device
(vendor-info digest checks and the SVN gate are skipped), LMS key family,
owner fuse digest zero, engines accepting. -/
def envG : Env :=
  { env0 with
    pqc_key_type_fuse := some FwVerificationPqcKeyType.LMS
    iccm_range_start := 0x40000000
    iccm_range_end := 0x40040000
    sha384_digest := shaG
    ecc384_verify := fun _ _ sg => .ok sg.r
    lms_verify := fun _ pk _ => .ok pk.digest
    parse_lms_pub_key := fun n => some { digest := n, body := n }
    parse_lms_sig := fun n => some n }

/-- The golden manifest accepted by `verify` under `envG`, with
`header.svn = MAX_FIRMWARE_SVN + 1`. -/
def mG : ImageManifest := {
  marker := MANIFEST_MARKER
  size := IMAGE_MANIFEST_BYTE_SIZE
  pqc_key_type := 1
  preamble := {
    vendor_pub_key_info := {
      ecc_key_descriptor := { version := KEY_DESCRIPTOR_VERSION, key_hash_count := 1,
                              key_hash := [40] }
      pqc_key_descriptor := { version := KEY_DESCRIPTOR_VERSION, key_type := 1,
                              key_hash_count := 1, key_hash := [41] } }
    vendor_ecc_pub_key_idx := 0
    vendor_ecc_active_pub_key := { x := 1, y := 2 }
    vendor_pqc_pub_key_idx := 0
    vendor_pqc_active_pub_key := 21
    vendor_sigs_ecc_sig := { r := 3, s := 4 }
    vendor_sigs_pqc_sig := 22
    owner_pub_keys_ecc_pub_key := { x := 7, y := 8 }
    owner_pub_keys_pqc_pub_key := 23
    owner_sigs_ecc_sig := { r := 5, s := 6 }
    owner_sigs_pqc_sig := 24 }
  header := { vendor_ecc_pub_key_idx := 0, vendor_pqc_pub_key_idx := 0,
              svn := MAX_FIRMWARE_SVN + 1, toc_len := 2, toc_digest := 73 }
  fmc := { digest := 74, load_addr := 0x40000000, entry_point := 0x40000000,
           size := 1024, offset := 17152 }
  runtime := { digest := 75, load_addr := 0x40010000, entry_point := 0x40010000,
               size := 1024, offset := 18176 } }

/-- C4 counterexample: the claim as stated is false.  `mG.header.svn` exceeds
`MAX_FIRMWARE_SVN`, yet with an unprovisioned lifecycle `verify` accepts the
bundle: the greater-than-max check only runs when the SVN check is required,
not "for every lifecycle and every anti_rollback_disable setting". -/
theorem C4_counterexample :
    exceptIsOk (verify envG mG 19200 ResetReason.ColdReset) = true ∧
    mG.header.svn = MAX_FIRMWARE_SVN + 1 ∧
    envG.dev_lifecycle = Lifecycle.Unprovisioned := by
  refine ⟨?_, rfl, rfl⟩
  decide

/-- C4 (amended): when the SVN check is required (provisioned lifecycle and
anti-rollback not disabled), a manifest SVN above `MAX_FIRMWARE_SVN` makes
the SVN gate fail with
`IMAGE_VERIFIER_ERR_FIRMWARE_SVN_GREATER_THAN_MAX_SUPPORTED`, and `verify`
cannot succeed on such a manifest. -/
theorem C4_svn_max_gate (env : Env) (m : ImageManifest) (sz : Nat)
    (r : ResetReason) (hreq : svn_check_required env = true)
    (hgt : m.header.svn > MAX_FIRMWARE_SVN) :
    verify_svn env m.header.svn =
      .error CaliptraError.IMAGE_VERIFIER_ERR_FIRMWARE_SVN_GREATER_THAN_MAX_SUPPORTED ∧
    ∀ info, verify env m sz r ≠ .ok info := by
  have h1 : verify_svn env m.header.svn =
      .error CaliptraError.IMAGE_VERIFIER_ERR_FIRMWARE_SVN_GREATER_THAN_MAX_SUPPORTED := by
    unfold verify_svn
    rw [hreq]
    simp only [bind, Except.bind, except_throw_eq, except_pure_eq]
    rw [if_pos hgt]
    simp
  refine ⟨h1, fun info hok => ?_⟩
  have h2 := verify_ok_svn_ok env m sz r info hok
  rw [h1] at h2
  exact Except.noConfusion h2

/-- C4 manifest for the witness: the dummy manifest with an over-max SVN. -/
def mC4 : ImageManifest :=
  { m0 with header := { m0.header with svn := MAX_FIRMWARE_SVN + 1 } }

/-- C4 witness: the amended theorem applied at a concrete provisioned
environment and over-max manifest. -/
theorem C4_witness :
    verify_svn envC1 mC4.header.svn =
      .error CaliptraError.IMAGE_VERIFIER_ERR_FIRMWARE_SVN_GREATER_THAN_MAX_SUPPORTED := by
  exact (C4_svn_max_gate envC1 mC4 0 ResetReason.ColdReset (by decide) (by decide)).1

/-- C5: on a successful update reset, `populate_data_vault` sets the firmware
min-SVN to `min(old_min_svn, new fw_svn)`, sets the data-vault fw_svn to the
new manifest SVN, and extends the key ladder by exactly
`old_min_svn − new_min_svn` steps — zero steps when the min-SVN does not
decrease — so the chain is never shortened. -/
theorem C5_update_reset_min_svn_and_ladder (dv : DataVault) (chain_len : Nat)
    (info : ImageVerificationInfo) :
    (update_reset_populate_data_vault dv chain_len info).1.fw_min_svn
      = min dv.fw_min_svn info.fw_svn ∧
    (update_reset_populate_data_vault dv chain_len info).1.fw_svn = info.fw_svn ∧
    (update_reset_populate_data_vault dv chain_len info).2
      = chain_len + (dv.fw_min_svn - min dv.fw_min_svn info.fw_svn) ∧
    (dv.fw_min_svn ≤ info.fw_svn →
      (update_reset_populate_data_vault dv chain_len info).2 = chain_len) ∧
    chain_len ≤ (update_reset_populate_data_vault dv chain_len info).2 := by
  unfold update_reset_populate_data_vault extend_key_ladder
  refine ⟨rfl, rfl, rfl, fun h => ?_, ?_⟩
  · simp only
    omega
  · simp only
    omega

/-- An all-zero data vault for witnesses. -/
def dv0 : DataVault := {
  fmc_tci := 0, rt_tci := 0, cold_boot_fw_svn := 0, fw_svn := 0, fw_min_svn := 0
  fmc_entry_point := 0, rt_entry_point := 0, owner_pk_hash := 0
  vendor_ecc_pk_index := 0, vendor_pqc_pk_index := 0, manifest_addr := 0 }

/-- A concrete verification-info value for witnesses (fw_svn = 7). -/
def info0 : ImageVerificationInfo := {
  vendor_ecc_pub_key_idx := 0, vendor_pqc_pub_key_idx := 0
  owner_pub_keys_digest := 0, owner_pub_keys_digest_in_fuses := false
  fmc := { load_addr := 0, entry_point := 0, digest := 0, size := 0 }
  runtime := { load_addr := 0, entry_point := 0, digest := 0, size := 0 }
  fw_svn := 7, effective_fuse_svn := 0
  pqc_key_type := FwVerificationPqcKeyType.LMS }

/-- C5 witness: with the old min-SVN at 5 and a new fw_svn of 7 the min-SVN
does not decrease and the ladder is unchanged. -/
theorem C5_witness :
    (update_reset_populate_data_vault { dv0 with fw_min_svn := 5 } 11 info0).2 = 11 :=
  (C5_update_reset_min_svn_and_ladder { dv0 with fw_min_svn := 5 } 11 info0).2.2.2.1
    (by decide)

/-- C6: cold-boot `populate_data_vault` sets the cold-boot FW SVN, the
current FW SVN and the FW min-SVN all equal to the verified manifest SVN, and
`populate_fw_key_ladder` then initializes the chain to length
`MAX_FIRMWARE_SVN − fw_svn`, raising `FW_PROC_SVN_TOO_LARGE` when the SVN
exceeds `MAX_FIRMWARE_SVN` at that point. -/
theorem C6_cold_boot_svn_fields_and_ladder (dv : DataVault)
    (info : ImageVerificationInfo) (addr : Nat) :
    (cold_boot_populate_data_vault dv info addr).cold_boot_fw_svn = info.fw_svn ∧
    (cold_boot_populate_data_vault dv info addr).fw_svn = info.fw_svn ∧
    (cold_boot_populate_data_vault dv info addr).fw_min_svn = info.fw_svn ∧
    (info.fw_svn ≤ MAX_FIRMWARE_SVN →
      populate_fw_key_ladder (cold_boot_populate_data_vault dv info addr)
        = .ok (MAX_FIRMWARE_SVN - info.fw_svn)) ∧
    (info.fw_svn > MAX_FIRMWARE_SVN →
      populate_fw_key_ladder (cold_boot_populate_data_vault dv info addr)
        = .error CaliptraError.FW_PROC_SVN_TOO_LARGE) := by
  refine ⟨rfl, rfl, rfl, fun h => ?_, fun h => ?_⟩
  · unfold populate_fw_key_ladder cold_boot_populate_data_vault key_ladder_init
    simp only [bind, Except.bind, except_throw_eq, except_pure_eq]
    rw [if_neg (show ¬ info.fw_svn > MAX_FIRMWARE_SVN by omega)]
  · unfold populate_fw_key_ladder cold_boot_populate_data_vault key_ladder_init
    simp only [bind, Except.bind, except_throw_eq, except_pure_eq]
    rw [if_pos (show info.fw_svn > MAX_FIRMWARE_SVN from h)]

/-- C6 witness: with fw_svn = 7 the ladder is initialized to length
`MAX_FIRMWARE_SVN − 7 = 121`. -/
theorem C6_witness :
    populate_fw_key_ladder (cold_boot_populate_data_vault dv0 info0 0)
      = .ok (MAX_FIRMWARE_SVN - 7) :=
  (C6_cold_boot_svn_fields_and_ladder dv0 info0 0).2.2.2.1 (by decide)

/-- C9 counterexample: the claim as stated is false.  When the HMAC-KDF into
`KEY_ID_TMP` fails, `ecc384_key_gen` returns the error without invoking
`erase_key(KEY_ID_TMP)`: that error return is an exit path with no erase. -/
theorem C9_counterexample :
    (ecc384_key_gen
        { hmac_kdf_ok := false, key_pair_result := .ok 0, erase_ok := true } 1).1
      = .error CaliptraError.ROM_KDF_FAILURE ∧
    (ecc384_key_gen
        { hmac_kdf_ok := false, key_pair_result := .ok 0, erase_ok := true } 1).2
      = false := by
  exact ⟨rfl, rfl⟩

/-- C9 (amended): after a successful KDF into `KEY_ID_TMP`, the temporary
slot is erased on every exit path — in particular also when the key-pair
engine call failed; only the early error return of a failed KDF (the slot's
producer) exits without an erase. -/
theorem C9_tmp_slot_erase (o : KeyGenOracle) (pk : Nat) :
    (o.hmac_kdf_ok = true → (ecc384_key_gen o pk).2 = true) ∧
    (o.hmac_kdf_ok = false → (ecc384_key_gen o pk).2 = false) := by
  unfold ecc384_key_gen
  constructor
  · intro h
    rw [if_neg (by simp [h])]
    cases o.key_pair_result <;> split <;> rfl
  · intro h
    rw [if_pos (by simp [h])]

/-- C9 witness: the erase is invoked even when the key-pair engine fails. -/
theorem C9_witness :
    (ecc384_key_gen
        { hmac_kdf_ok := true, key_pair_result := .error (), erase_ok := true } 1).2
      = true :=
  (C9_tmp_slot_erase
      { hmac_kdf_ok := true, key_pair_result := .error (), erase_ok := true } 1).1 rfl

/-- The measurement-log entry a stash request produces. -/
def entryOf (r : StashMeasurementReq) : MeasurementLogEntry :=
  { pcr_data := r.measurement, metadata := r.metadata, context := r.context,
    svn := r.svn }

/-- C8: starting from an empty measurement log (index 0, capacity 8), the
first 8 STASH_MEASUREMENT commands are accepted — each extends PCR31 with its
measurement, appends a log entry at the current index and increments the
index, so afterwards PCR31 is the iterated extension of the 8 measurements in
submission order and the index is 8 — and a 9th command fails with the fatal
`FW_PROC_MAILBOX_STASH_MEASUREMENT_MAX_LIMIT`. -/
theorem C8_stash_measurement_limit (ext : Digest384 → Nat → Digest384)
    (p : Digest384) (l1 l2 l3 l4 l5 l6 l7 l8 : MeasurementLogEntry)
    (r1 r2 r3 r4 r5 r6 r7 r8 r9 : StashMeasurementReq) :
    run_stash_cmds ext
        { meas_log_index := 0, measurement_log := [l1, l2, l3, l4, l5, l6, l7, l8],
          pcr31 := p }
        [r1, r2, r3, r4, r5, r6, r7, r8]
      = .ok { meas_log_index := 8,
              measurement_log := [entryOf r1, entryOf r2, entryOf r3, entryOf r4,
                                  entryOf r5, entryOf r6, entryOf r7, entryOf r8],
              pcr31 := ext (ext (ext (ext (ext (ext (ext (ext p
                r1.measurement) r2.measurement) r3.measurement) r4.measurement)
                r5.measurement) r6.measurement) r7.measurement) r8.measurement } ∧
    run_stash_cmds ext
        { meas_log_index := 0, measurement_log := [l1, l2, l3, l4, l5, l6, l7, l8],
          pcr31 := p }
        [r1, r2, r3, r4, r5, r6, r7, r8, r9]
      = .error CaliptraError.FW_PROC_MAILBOX_STASH_MEASUREMENT_MAX_LIMIT := by
  constructor <;> rfl

/-- C3: a vendor key index (ECC or PQC) strictly below `key_hash_count − 1`
whose revocation bit is set is rejected with the corresponding
VENDOR_*_PUB_KEY_REVOKED error, while the last index (`key_hash_count − 1`)
never consults the revocation bitmask and is accepted whatever its value
(outside update reset, where only the data-vault index equality is further
required). -/
theorem C3_vendor_key_revocation (env : Env) (p : ImagePreamble)
    (reason : ResetReason) (rev : Nat) :
    (p.vendor_ecc_pub_key_idx <
        wrap32 (p.vendor_pub_key_info.ecc_key_descriptor.key_hash_count + (U32_MOD - 1)) →
     p.vendor_ecc_pub_key_idx < 32 →
     Nat.testBit env.vendor_ecc_pub_key_revocation p.vendor_ecc_pub_key_idx = true →
     verify_vendor_ecc_pk_idx env p reason =
       .error CaliptraError.IMAGE_VERIFIER_ERR_VENDOR_ECC_PUB_KEY_REVOKED) ∧
    (p.vendor_ecc_pub_key_idx =
        wrap32 (p.vendor_pub_key_info.ecc_key_descriptor.key_hash_count + (U32_MOD - 1)) →
     reason ≠ ResetReason.UpdateReset →
     verify_vendor_ecc_pk_idx env p reason =
       .ok (p.vendor_ecc_pub_key_idx, env.vendor_ecc_pub_key_revocation)) ∧
    (p.vendor_pqc_pub_key_idx <
        wrap32 (p.vendor_pub_key_info.pqc_key_descriptor.key_hash_count + (U32_MOD - 1)) →
     p.vendor_pqc_pub_key_idx < 32 →
     Nat.testBit rev p.vendor_pqc_pub_key_idx = true →
     verify_vendor_pqc_pk_idx env p reason rev =
       .error CaliptraError.IMAGE_VERIFIER_ERR_VENDOR_PQC_PUB_KEY_REVOKED) ∧
    (p.vendor_pqc_pub_key_idx =
        wrap32 (p.vendor_pub_key_info.pqc_key_descriptor.key_hash_count + (U32_MOD - 1)) →
     reason ≠ ResetReason.UpdateReset →
     verify_vendor_pqc_pk_idx env p reason rev = .ok p.vendor_pqc_pub_key_idx) := by
  refine ⟨fun hlt h32 hbit => ?_, fun hlast hr => ?_, fun hlt h32 hbit => ?_,
    fun hlast hr => ?_⟩
  · unfold verify_vendor_ecc_pk_idx
    simp only [bind, Except.bind, except_throw_eq, except_pure_eq]
    rw [if_neg (by omega), if_neg (by omega), Nat.mod_eq_of_lt h32, if_pos hbit]
  · unfold verify_vendor_ecc_pk_idx
    simp only [bind, Except.bind, except_throw_eq, except_pure_eq]
    rw [if_neg (by omega), if_pos hlast, if_neg hr]
  · unfold verify_vendor_pqc_pk_idx
    simp only [bind, Except.bind, except_throw_eq, except_pure_eq]
    rw [if_neg (by omega), if_neg (by omega), Nat.mod_eq_of_lt h32, if_pos hbit]
  · unfold verify_vendor_pqc_pk_idx
    simp only [bind, Except.bind, except_throw_eq, except_pure_eq]
    rw [if_neg (by omega), if_pos hlast, if_neg hr]

/-- Preamble for the C3 witness: two key hashes per family, active index 0. -/
def pC3 : ImagePreamble :=
  { m0.preamble with
    vendor_pub_key_info := {
      ecc_key_descriptor := { version := KEY_DESCRIPTOR_VERSION, key_hash_count := 2,
                              key_hash := [40, 41] }
      pqc_key_descriptor := { version := KEY_DESCRIPTOR_VERSION, key_type := 1,
                              key_hash_count := 2, key_hash := [42, 43] } } }

/-- Preamble for the C3 witness, selecting the last key index. -/
def pC3last : ImagePreamble :=
  { pC3 with vendor_ecc_pub_key_idx := 1, vendor_pqc_pub_key_idx := 1 }

/-- Environment for the C3 witness: revocation bit 0 set in every family. -/
def envC3 : Env :=
  { env0 with
    vendor_ecc_pub_key_revocation := 1
    vendor_lms_pub_key_revocation := 1
    vendor_mldsa_pub_key_revocation := 1 }

/-- C3 witness: index 0 of 2 with bit 0 revoked is rejected; the last index
(1 of 2) is accepted under the same all-revoking bitmask. -/
theorem C3_witness :
    verify_vendor_ecc_pk_idx envC3 pC3 ResetReason.ColdReset =
      .error CaliptraError.IMAGE_VERIFIER_ERR_VENDOR_ECC_PUB_KEY_REVOKED ∧
    verify_vendor_ecc_pk_idx envC3 pC3last ResetReason.ColdReset =
      .ok (1, envC3.vendor_ecc_pub_key_revocation) ∧
    verify_vendor_pqc_pk_idx envC3 pC3 ResetReason.ColdReset 1 =
      .error CaliptraError.IMAGE_VERIFIER_ERR_VENDOR_PQC_PUB_KEY_REVOKED ∧
    verify_vendor_pqc_pk_idx envC3 pC3last ResetReason.ColdReset 1 = .ok 1 := by
  refine ⟨?_, ?_, ?_, ?_⟩
  · exact (C3_vendor_key_revocation envC3 pC3 ResetReason.ColdReset 1).1
      (by decide) (by decide) (by decide)
  · exact (C3_vendor_key_revocation envC3 pC3last ResetReason.ColdReset 1).2.1
      (by decide) (by decide)
  · exact (C3_vendor_key_revocation envC3 pC3 ResetReason.ColdReset 1).2.2.1
      (by decide) (by decide) (by decide)
  · exact (C3_vendor_key_revocation envC3 pC3last ResetReason.ColdReset 1).2.2.2
      (by decide) (by decide)

/-- C10: in the unprovisioned lifecycle the vendor key-descriptor validation
is skipped entirely, yet the vendor key-index gates still compute
`last_key_idx = key_hash_count − 1` from the unvalidated descriptor with
wrapping `u32` subtraction: for `key_hash_count = 0` it wraps to
`0xFFFF_FFFF`, the bounds check passes for every possible `u32` key index and
no OUT_OF_BOUNDS error is produced. -/
theorem C10_zero_hash_count_wrap (env : Env) (p : ImagePreamble)
    (reason : ResetReason) (t : FwVerificationPqcKeyType) (rev : Nat) :
    (env.dev_lifecycle = Lifecycle.Unprovisioned →
      verify_vendor_pub_key_info_digest env p t = .ok ()) ∧
    wrap32 (0 + (U32_MOD - 1)) = 4294967295 ∧
    (p.vendor_pub_key_info.ecc_key_descriptor.key_hash_count = 0 →
     p.vendor_ecc_pub_key_idx < U32_MOD →
     ∀ e, verify_vendor_ecc_pk_idx env p reason = .error e →
       e ≠ CaliptraError.IMAGE_VERIFIER_ERR_VENDOR_ECC_PUB_KEY_INDEX_OUT_OF_BOUNDS) ∧
    (p.vendor_pub_key_info.pqc_key_descriptor.key_hash_count = 0 →
     p.vendor_pqc_pub_key_idx < U32_MOD →
     ∀ e, verify_vendor_pqc_pk_idx env p reason rev = .error e →
       e ≠ CaliptraError.IMAGE_VERIFIER_ERR_VENDOR_PQC_PUB_KEY_INDEX_OUT_OF_BOUNDS) := by
  refine ⟨fun h => ?_, by decide, fun hc hlt e h => ?_, fun hc hlt e h => ?_⟩
  · unfold verify_vendor_pub_key_info_digest
    rw [if_pos h]
    rfl
  · unfold verify_vendor_ecc_pk_idx at h
    simp only [bind, Except.bind, except_throw_eq, except_pure_eq] at h
    rw [hc] at h
    rw [(by decide : wrap32 (0 + (U32_MOD - 1)) = 4294967295)] at h
    rw [if_neg (by simp only [U32_MOD] at hlt; omega)] at h
    repeat' split at h
    all_goals first
      | exact Except.noConfusion h
      | (cases h; decide)
  · unfold verify_vendor_pqc_pk_idx at h
    simp only [bind, Except.bind, except_throw_eq, except_pure_eq] at h
    rw [hc] at h
    rw [(by decide : wrap32 (0 + (U32_MOD - 1)) = 4294967295)] at h
    rw [if_neg (by simp only [U32_MOD] at hlt; omega)] at h
    repeat' split at h
    all_goals first
      | exact Except.noConfusion h
      | (cases h; decide)

/-- Preamble for the C10 witness: zero hash counts, key index 5. -/
def pC10 : ImagePreamble :=
  { m0.preamble with vendor_ecc_pub_key_idx := 5, vendor_pqc_pub_key_idx := 5 }

/-- C10 witness: in `env0` (unprovisioned) the descriptor validation is
skipped, and with `key_hash_count = 0` the index-5 gates cannot return
OUT_OF_BOUNDS. -/
theorem C10_witness :
    verify_vendor_pub_key_info_digest env0 m0.preamble FwVerificationPqcKeyType.LMS
      = .ok () ∧
    verify_vendor_ecc_pk_idx env0 pC10 ResetReason.ColdReset ≠
      .error CaliptraError.IMAGE_VERIFIER_ERR_VENDOR_ECC_PUB_KEY_INDEX_OUT_OF_BOUNDS ∧
    verify_vendor_pqc_pk_idx env0 pC10 ResetReason.ColdReset 0 ≠
      .error CaliptraError.IMAGE_VERIFIER_ERR_VENDOR_PQC_PUB_KEY_INDEX_OUT_OF_BOUNDS := by
  refine ⟨?_, fun h => ?_, fun h => ?_⟩
  · exact (C10_zero_hash_count_wrap env0 m0.preamble ResetReason.ColdReset
      FwVerificationPqcKeyType.LMS 0).1 rfl
  · exact (C10_zero_hash_count_wrap env0 pC10 ResetReason.ColdReset
      FwVerificationPqcKeyType.LMS 0).2.2.1 (by decide) (by decide) _ h rfl
  · exact (C10_zero_hash_count_wrap env0 pC10 ResetReason.ColdReset
      FwVerificationPqcKeyType.LMS 0).2.2.2 (by decide) (by decide) _ h rfl

set_option maxHeartbeats 2000000 in
/-- A successful preamble check contains a successful owner-digest check
whose result is recorded in the header info. -/
theorem verify_preamble_ok_owner_pk (env : Env) (p : ImagePreamble)
    (r : ResetReason) (t : FwVerificationPqcKeyType) (hi : HeaderInfo)
    (h : verify_preamble env p r t = .ok hi) :
    verify_owner_pk_digest env r =
      .ok (hi.owner_pub_keys_digest, hi.owner_pub_keys_digest_in_fuses) := by
  unfold verify_preamble at h
  simp only [bind, Except.bind, except_throw_eq, except_pure_eq] at h
  repeat' split at h
  all_goals first
    | exact Except.noConfusion h
    | (cases h; assumption)

/-- A successful `verify` contains a successful preamble check (recorded in
the returned info) and a successful FMC check. -/
theorem verify_ok_parts (env : Env) (m : ImageManifest) (sz : Nat)
    (r : ResetReason) (info : ImageVerificationInfo)
    (h : verify env m sz r = .ok info) :
    (∃ t hi, verify_preamble env m.preamble r t = .ok hi ∧
      hi.owner_pub_keys_digest = info.owner_pub_keys_digest ∧
      hi.owner_pub_keys_digest_in_fuses = info.owner_pub_keys_digest_in_fuses) ∧
    (∃ fi, verify_fmc env m.fmc r = .ok fi) := by
  unfold verify at h
  simp only [bind, Except.bind, except_throw_eq, except_pure_eq] at h
  repeat' split at h
  all_goals first
    | exact Except.noConfusion h
    | (cases h; exact ⟨⟨_, _, by assumption, rfl, rfl⟩, ⟨_, by assumption⟩⟩)

/-- In update reset, a successful owner-digest check pins the data-vault
owner public-key hash to the computed digest. -/
theorem verify_owner_pk_digest_ok_update (env : Env) (x : Digest384 × Bool)
    (h : verify_owner_pk_digest env ResetReason.UpdateReset = .ok x) :
    env.sha384_digest owner_pub_key_range.1
        (owner_pub_key_range.2 - owner_pub_key_range.1) = .ok x.1 ∧
    env.owner_pub_key_digest_dv = x.1 := by
  unfold verify_owner_pk_digest at h
  simp only [bind, Except.bind, except_throw_eq, except_pure_eq] at h
  repeat' split at h
  all_goals first
    | exact Except.noConfusion h
    | exact absurd rfl (by assumption)
    | exact absurd trivial (by assumption)
    | (cases h; constructor <;> simp_all)

/-- In update reset, a successful FMC check pins the data-vault FMC digest to
the computed image digest. -/
theorem verify_fmc_ok_update (env : Env) (vi : ImageTocEntry)
    (x : ImageVerificationExeInfo)
    (h : verify_fmc env vi ResetReason.UpdateReset = .ok x) :
    ∃ rng d, vi.image_range = .ok rng ∧
      env.sha384_digest rng.1 (rng.2 - rng.1) = .ok d ∧
      vi.digest = d ∧ env.get_fmc_digest_dv = d := by
  unfold verify_fmc at h
  simp only [bind, Except.bind, except_throw_eq, except_pure_eq] at h
  repeat' split at h
  all_goals first
    | exact Except.noConfusion h
    | exact absurd rfl (by assumption)
    | exact absurd trivial (by assumption)
    | (cases h; refine ⟨_, _, by assumption, by assumption, ?_, ?_⟩ <;> simp_all)

/-- C2: with reset reason UpdateReset, (i) verify succeeds only if the
SHA-384 digest over the owner public-key region equals the data-vault
owner-pub-key hash and the computed FMC digest equals the data-vault FMC
digest; (ii) an owner-digest/data-vault mismatch makes the owner-digest check
fail with IMAGE_VERIFIER_ERR_UPDATE_RESET_OWNER_DIGEST_FAILURE; (iii) an
FMC-digest/data-vault mismatch makes the FMC check fail with
IMAGE_VERIFIER_ERR_UPDATE_RESET_FMC_DIGEST_MISMATCH. -/
theorem C2_update_reset_digest_checks (env : Env) (m : ImageManifest) (sz : Nat)
    (info : ImageVerificationInfo) (vi : ImageTocEntry) (d : Digest384)
    (rng : Nat × Nat) :
    (verify env m sz ResetReason.UpdateReset = .ok info →
      env.sha384_digest owner_pub_key_range.1
          (owner_pub_key_range.2 - owner_pub_key_range.1)
        = .ok info.owner_pub_keys_digest ∧
      env.owner_pub_key_digest_dv = info.owner_pub_keys_digest ∧
      ∃ rng2 d2, m.fmc.image_range = .ok rng2 ∧
        env.sha384_digest rng2.1 (rng2.2 - rng2.1) = .ok d2 ∧
        m.fmc.digest = d2 ∧ env.get_fmc_digest_dv = d2) ∧
    (env.sha384_digest owner_pub_key_range.1
        (owner_pub_key_range.2 - owner_pub_key_range.1) = .ok d →
      (env.owner_pub_key_digest_fuses = ZERO_DIGEST ∨
        env.owner_pub_key_digest_fuses = d) →
      env.owner_pub_key_digest_dv ≠ d →
      verify_owner_pk_digest env ResetReason.UpdateReset =
        .error CaliptraError.IMAGE_VERIFIER_ERR_UPDATE_RESET_OWNER_DIGEST_FAILURE) ∧
    (vi.image_range = .ok rng →
      env.sha384_digest rng.1 (rng.2 - rng.1) = .ok d →
      vi.digest = d →
      env.iccm_contains vi.load_addr →
      env.iccm_contains (wrap32 (vi.load_addr + vi.size + (U32_MOD - 1))) →
      vi.load_addr % 4 = 0 →
      env.iccm_contains vi.entry_point →
      vi.entry_point % 4 = 0 →
      env.get_fmc_digest_dv ≠ d →
      verify_fmc env vi ResetReason.UpdateReset =
        .error CaliptraError.IMAGE_VERIFIER_ERR_UPDATE_RESET_FMC_DIGEST_MISMATCH) := by
  refine ⟨fun h => ?_, fun hsha hfuse hdv => ?_, ?_⟩
  · obtain ⟨⟨t, hi, hp, ho1, ho2⟩, ⟨fi, hf⟩⟩ := verify_ok_parts env m sz
      ResetReason.UpdateReset info h
    have hod := verify_preamble_ok_owner_pk env m.preamble ResetReason.UpdateReset
      t hi hp
    obtain ⟨hsha, hdv⟩ := verify_owner_pk_digest_ok_update env _ hod
    obtain ⟨rng2, d2, h1, h2, h3, h4⟩ := verify_fmc_ok_update env m.fmc fi hf
    exact ⟨ho1 ▸ hsha, ho1 ▸ hdv, rng2, d2, h1, h2, h3, h4⟩
  · unfold verify_owner_pk_digest
    simp only [hsha, bind, Except.bind, except_throw_eq, except_pure_eq]
    rcases hfuse with hf0 | hfd
    · rw [if_pos hf0, if_pos trivial, if_pos hdv]
    · by_cases hz : env.owner_pub_key_digest_fuses = ZERO_DIGEST
      · rw [if_pos hz, if_pos trivial, if_pos hdv]
      · rw [if_neg hz, if_neg (fun hne => hne hfd), if_pos trivial, if_pos hdv]
  · intro himg hsha2 hdg hla hlae hal hep hepa hdv2
    unfold verify_fmc
    simp only [himg, hsha2, bind, Except.bind, except_throw_eq, except_pure_eq]
    rw [if_neg (fun hne => hne hdg),
      if_neg (not_or.mpr ⟨not_not_intro hla, not_not_intro hlae⟩),
      if_neg (not_not_intro hal), if_neg (not_not_intro hep),
      if_neg (not_not_intro hepa), if_pos trivial,
      if_pos (fun hc => hdv2 (Eq.symm hc))]

/-- Environment for the C2 witness, part (i): golden environment with the
data-vault owner hash and FMC digest matching the golden manifest. -/
def envG2 : Env :=
  { envG with owner_pub_key_digest_dv := 70, get_fmc_digest_dv := 74 }

/-- The verification info `verify` returns for the golden manifest under
`envG2` in update reset. -/
def infoG : ImageVerificationInfo := {
  vendor_ecc_pub_key_idx := 0, vendor_pqc_pub_key_idx := 0
  owner_pub_keys_digest := 70, owner_pub_keys_digest_in_fuses := false
  fmc := { load_addr := 0x40000000, entry_point := 0x40000000, digest := 74,
           size := 1024 }
  runtime := { load_addr := 0x40010000, entry_point := 0x40010000, digest := 75,
               size := 1024 }
  fw_svn := MAX_FIRMWARE_SVN + 1, effective_fuse_svn := 0
  pqc_key_type := FwVerificationPqcKeyType.LMS }

/-- Environment for the C2 witness, part (ii): data-vault owner hash differs. -/
def envG3 : Env := { envG with owner_pub_key_digest_dv := 99 }

/-- Environment for the C2 witness, part (iii): data-vault FMC digest differs. -/
def envG4 : Env := { envG with get_fmc_digest_dv := 99 }

/-- C2 witness: the three parts applied at concrete update-reset runs. -/
theorem C2_witness :
    envG2.owner_pub_key_digest_dv = infoG.owner_pub_keys_digest ∧
    verify_owner_pk_digest envG3 ResetReason.UpdateReset =
      .error CaliptraError.IMAGE_VERIFIER_ERR_UPDATE_RESET_OWNER_DIGEST_FAILURE ∧
    verify_fmc envG4 mG.fmc ResetReason.UpdateReset =
      .error CaliptraError.IMAGE_VERIFIER_ERR_UPDATE_RESET_FMC_DIGEST_MISMATCH := by
  refine ⟨?_, ?_, ?_⟩
  · exact ((C2_update_reset_digest_checks envG2 mG 19200 infoG mG.fmc 0 (0, 0)).1
      (by decide)).2.1
  · exact (C2_update_reset_digest_checks envG3 mG 19200 infoG mG.fmc 70 (0, 0)).2.1
      (by decide) (Or.inl (by decide)) (by decide)
  · exact (C2_update_reset_digest_checks envG4 mG 19200 infoG mG.fmc 74
      (17152, 18176)).2.2 (by decide) (by decide) (by decide) (by decide)
      (by decide) (by decide) (by decide) (by decide) (by decide)

theorem verify_toc_overlap_err (env : Env) (m : ImageManifest) (tl : Nat)
    (td : Digest384) (sz : Nat)
    (htl : tl = MAX_TOC_ENTRY_COUNT)
    (hsha : env.sha384_digest toc_range.1 (toc_range.2 - toc_range.1) = .ok td)
    (hf : m.fmc.size ≠ 0) (hr : m.runtime.size ≠ 0)
    (hlen : m.size + m.fmc.size + m.runtime.size ≤ sz)
    (hno1 : m.fmc.offset + m.fmc.size < U32_MOD)
    (hno2 : m.runtime.offset + m.runtime.size < U32_MOD)
    (h1 : m.fmc.offset < m.runtime.offset + m.runtime.size)
    (h2 : m.runtime.offset < m.fmc.offset + m.fmc.size) :
    verify_toc env m tl td sz =
      .error CaliptraError.IMAGE_VERIFIER_ERR_FMC_RUNTIME_OVERLAP := by
  unfold verify_toc
  simp only [hsha, bind, Except.bind, except_throw_eq, except_pure_eq,
    ImageTocEntry.image_size, ImageTocEntry.image_range]
  rw [if_neg (fun hne => hne htl), if_neg (fun hne => hne rfl), if_neg hf,
    if_neg hr, if_neg (Nat.not_lt.mpr hlen), if_pos hno1, if_pos hno2]
  simp only []
  rw [if_pos ⟨h1, h2⟩]

theorem verify_toc_order_err (env : Env) (m : ImageManifest) (tl : Nat)
    (td : Digest384) (sz : Nat)
    (htl : tl = MAX_TOC_ENTRY_COUNT)
    (hsha : env.sha384_digest toc_range.1 (toc_range.2 - toc_range.1) = .ok td)
    (hf : m.fmc.size ≠ 0) (hr : m.runtime.size ≠ 0)
    (hlen : m.size + m.fmc.size + m.runtime.size ≤ sz)
    (hno1 : m.fmc.offset + m.fmc.size < U32_MOD)
    (hno2 : m.runtime.offset + m.runtime.size < U32_MOD)
    (h1 : m.runtime.offset + m.runtime.size ≤ m.fmc.offset) :
    verify_toc env m tl td sz =
      .error CaliptraError.IMAGE_VERIFIER_ERR_FMC_RUNTIME_INCORRECT_ORDER := by
  unfold verify_toc
  simp only [hsha, bind, Except.bind, except_throw_eq, except_pure_eq,
    ImageTocEntry.image_size, ImageTocEntry.image_range]
  rw [if_neg (fun hne => hne htl), if_neg (fun hne => hne rfl), if_neg hf,
    if_neg hr, if_neg (Nat.not_lt.mpr hlen), if_pos hno1, if_pos hno2]
  simp only []
  rw [if_neg (fun hc => absurd hc.1 (by omega)), if_pos (by omega)]

theorem verify_toc_load_addr_overlap_err (env : Env) (m : ImageManifest)
    (tl : Nat) (td : Digest384) (sz : Nat)
    (htl : tl = MAX_TOC_ENTRY_COUNT)
    (hsha : env.sha384_digest toc_range.1 (toc_range.2 - toc_range.1) = .ok td)
    (hf : m.fmc.size ≠ 0) (hr : m.runtime.size ≠ 0)
    (hlen : m.size + m.fmc.size + m.runtime.size ≤ sz)
    (hno1 : m.fmc.offset + m.fmc.size < U32_MOD)
    (hno2 : m.runtime.offset + m.runtime.size < U32_MOD)
    (h1 : m.fmc.offset + m.fmc.size ≤ m.runtime.offset)
    (h2 : m.fmc.load_addr + (m.fmc.size - 1) < U32_MOD)
    (h3 : m.runtime.load_addr + (m.runtime.size - 1) < U32_MOD)
    (h4 : m.fmc.load_addr ≤ m.runtime.load_addr + (m.runtime.size - 1))
    (h5 : m.runtime.load_addr ≤ m.fmc.load_addr + (m.fmc.size - 1)) :
    verify_toc env m tl td sz =
      .error CaliptraError.IMAGE_VERIFIER_ERR_FMC_RUNTIME_LOAD_ADDR_OVERLAP := by
  unfold verify_toc
  simp only [hsha, bind, Except.bind, except_throw_eq, except_pure_eq,
    ImageTocEntry.image_size, ImageTocEntry.image_range]
  rw [if_neg (fun hne => hne htl), if_neg (fun hne => hne rfl), if_neg hf,
    if_neg hr, if_neg (Nat.not_lt.mpr hlen), if_pos hno1, if_pos hno2]
  simp only []
  rw [if_neg (fun hc => absurd hc.2 (by omega)), if_neg (by omega),
    if_neg (by omega), if_neg (by omega), if_pos ⟨h4, h5⟩]

/-- C7: under the TOC preconditions that precede the geometry checks (entry
count 2, TOC digest match, non-zero component sizes, total length within the
bundle, no `offset+size` overflow), (i) in-bundle FMC and Runtime ranges that
share at least one byte — inside-overlapping or touching — raise
IMAGE_VERIFIER_ERR_FMC_RUNTIME_OVERLAP, (ii) disjoint ranges in swapped order
(Runtime before FMC) raise IMAGE_VERIFIER_ERR_FMC_RUNTIME_INCORRECT_ORDER,
and (iii) with sound in-bundle geometry, overlapping inclusive ICCM load
ranges raise IMAGE_VERIFIER_ERR_FMC_RUNTIME_LOAD_ADDR_OVERLAP. -/
theorem C7_toc_geometry (env : Env) (m : ImageManifest) (tl : Nat)
    (td : Digest384) (sz : Nat)
    (htl : tl = MAX_TOC_ENTRY_COUNT)
    (hsha : env.sha384_digest toc_range.1 (toc_range.2 - toc_range.1) = .ok td)
    (hf : m.fmc.size ≠ 0) (hr : m.runtime.size ≠ 0)
    (hlen : m.size + m.fmc.size + m.runtime.size ≤ sz)
    (hno1 : m.fmc.offset + m.fmc.size < U32_MOD)
    (hno2 : m.runtime.offset + m.runtime.size < U32_MOD) :
    (m.fmc.offset < m.runtime.offset + m.runtime.size →
     m.runtime.offset < m.fmc.offset + m.fmc.size →
     verify_toc env m tl td sz =
       .error CaliptraError.IMAGE_VERIFIER_ERR_FMC_RUNTIME_OVERLAP) ∧
    (m.runtime.offset + m.runtime.size ≤ m.fmc.offset →
     verify_toc env m tl td sz =
       .error CaliptraError.IMAGE_VERIFIER_ERR_FMC_RUNTIME_INCORRECT_ORDER) ∧
    (m.fmc.offset + m.fmc.size ≤ m.runtime.offset →
     m.fmc.load_addr + (m.fmc.size - 1) < U32_MOD →
     m.runtime.load_addr + (m.runtime.size - 1) < U32_MOD →
     m.fmc.load_addr ≤ m.runtime.load_addr + (m.runtime.size - 1) →
     m.runtime.load_addr ≤ m.fmc.load_addr + (m.fmc.size - 1) →
     verify_toc env m tl td sz =
       .error CaliptraError.IMAGE_VERIFIER_ERR_FMC_RUNTIME_LOAD_ADDR_OVERLAP) :=
  ⟨fun h1 h2 => verify_toc_overlap_err env m tl td sz htl hsha hf hr hlen
      hno1 hno2 h1 h2,
   fun h1 => verify_toc_order_err env m tl td sz htl hsha hf hr hlen
      hno1 hno2 h1,
   fun h1 h2 h3 h4 h5 => verify_toc_load_addr_overlap_err env m tl td sz htl
      hsha hf hr hlen hno1 hno2 h1 h2 h3 h4 h5⟩

/-- Manifest for the C7 witness, part (i): identical in-bundle ranges. -/
def mOv : ImageManifest :=
  { mG with runtime := { mG.runtime with offset := 17152 } }

/-- Manifest for the C7 witness, part (ii): Runtime placed before FMC. -/
def mSw : ImageManifest :=
  { mG with fmc := { mG.fmc with offset := 18176 },
            runtime := { mG.runtime with offset := 17152 } }

/-- Manifest for the C7 witness, part (iii): same ICCM load address for FMC
and Runtime. -/
def mLo : ImageManifest :=
  { mG with runtime := { mG.runtime with load_addr := 0x40000000 } }

/-- C7 witness: the three geometry errors on concrete manifests. -/
theorem C7_witness :
    verify_toc envG mOv 2 73 19200 =
      .error CaliptraError.IMAGE_VERIFIER_ERR_FMC_RUNTIME_OVERLAP ∧
    verify_toc envG mSw 2 73 19200 =
      .error CaliptraError.IMAGE_VERIFIER_ERR_FMC_RUNTIME_INCORRECT_ORDER ∧
    verify_toc envG mLo 2 73 19200 =
      .error CaliptraError.IMAGE_VERIFIER_ERR_FMC_RUNTIME_LOAD_ADDR_OVERLAP := by
  refine ⟨?_, ?_, ?_⟩
  · exact (C7_toc_geometry envG mOv 2 73 19200 (by decide) (by decide) (by decide)
      (by decide) (by decide) (by decide) (by decide)).1 (by decide) (by decide)
  · exact (C7_toc_geometry envG mSw 2 73 19200 (by decide) (by decide) (by decide)
      (by decide) (by decide) (by decide) (by decide)).2.1 (by decide)
  · exact (C7_toc_geometry envG mLo 2 73 19200 (by decide) (by decide) (by decide)
      (by decide) (by decide) (by decide) (by decide)).2.2 (by decide) (by decide)
      (by decide) (by decide) (by decide)

end Caliptra
